import Mathlib

/-!
Verification of the timetable generator and substitute auto-assignment
engine (`backend/app` of the `time` repository).

The development shallowly embeds the Python source:

* entity dataclasses (`app/domain/entities/all_entities.py`) and the
  SQLAlchemy rows they mirror become Lean structures;
* every machine integer is a `Nat` (database primary keys), every float
  a `ℚ`; Python's `None` becomes `Option.none`;
* Python dict grouping (insertion-ordered buckets) is modelled by
  `firstOccs` (first-occurrence key order) together with occurrence
  counts, and dict comprehension `{k(x): v(x) for x in l}` (last write
  wins) by `lastVal`;
* the only genuinely non-deterministic ingredients - the CP-SAT search
  and `random.choice` - are turned into explicit parameters: a boolean
  valuation of the decision variables constrained to satisfy exactly
  the linear constraints the source emits, and explicit pick functions;
* a Python float square root (`** 0.5`, used once, in the workload
  standard deviation) is an explicit function parameter `sqrtFn`;
* code that can raise (`ZeroDivisionError`, the genetic solver being
  handed a list where its `pop_size : int` is expected) returns
  `Option`/`Except` values.

Presentation-only payload fields (names echoed into JSON responses,
`day`/`period` copies in solver output dicts) are dropped; ids and all
fields any checked computation reads are kept.
-/

/-- Truthiness of an optional integer, as Python evaluates it
(`None` and `0` are falsy). -/
def truthyId : Option Nat → Bool
  | none => false
  | some n => n != 0

/-- Keys of a Python dict built by repeated insertion: every key of `l`,
keeping the first occurrence's position. -/
def firstOccs {α : Type} [DecidableEq α] (l : List α) : List α :=
  l.foldl (fun acc k => if k ∈ acc then acc else acc ++ [k]) []

/-- Lookup in the dict comprehension `{key x : val x for x in l}`:
the last element of `l` with the given key wins. -/
def lastVal {α β : Type} (l : List α) (key : α → Nat) (val : α → β) (k : Nat) : Option β :=
  l.foldl (fun acc x => if key x = k then some (val x) else acc) none

/-- Teacher row (`models.Teacher`); `max_hours_per_week` is a nullable
integer column. -/
structure Teacher where
  id : Nat
  max_hours_per_week : Option Nat
deriving DecidableEq

/-- Room row (`models.Room`). -/
structure Room where
  id : Nat
  capacity : Nat
  type : String
deriving DecidableEq

/-- Subject row (`models.Subject`). -/
structure Subject where
  id : Nat
  name : String
  is_lab : Bool
  required_room_type : String
  duration_slots : Nat
  teacher_id : Option Nat
deriving DecidableEq

/-- Class-group row (`models.ClassGroup`; named `ClassGrp` here because Mathlib already has a `ClassGroup`). -/
structure ClassGrp where
  id : Nat
  student_count : Nat
deriving DecidableEq

/-- Time-slot row (`models.TimeSlot`). -/
structure TimeSlot where
  id : Nat
  day : String
  period : Nat
  is_break : Bool
deriving DecidableEq

/-- Timetable entry: a solver output dict or a `models.TimetableEntry`
row; `id` is the database primary key (0 before insertion). -/
structure Entry where
  id : Nat
  class_group_id : Nat
  subject_id : Nat
  room_id : Nat
  time_slot_id : Nat
  teacher_id : Option Nat
deriving DecidableEq

/-- Required-assignment dict produced by the lesson expansion loop in
`TimetableService.generate_and_save`. -/
structure Assignment where
  assignment_id : Nat
  group_id : Nat
  subject_id : Nat
  teacher_id : Option Nat
  duration : Nat
  occurrence : Nat
deriving DecidableEq

/-- Substitution row (`models.Substitution`). -/
structure Substitution where
  date : String
  timetable_entry_id : Nat
  original_teacher_id : Nat
  substitute_teacher_id : Option Nat
  status : String
deriving DecidableEq

/-- Lesson row together with its three many-to-many id lists. -/
structure Lesson where
  teacher_ids : List Nat
  subject_ids : List Nat
  group_ids : List Nat
  lessons_per_week : Nat
  length_per_lesson : Nat
deriving DecidableEq

/-- Timetable version row (`models.TimetableVersion`); only the fields
the generation services write are kept. -/
structure Version where
  status : String
  is_valid : Bool
  fitness_score : Option ℚ
  entries : List Entry
deriving DecidableEq

/-! ## Hard constraints (`app/solver/constraints/base.py`) -/

/-- Shared shape of `check_teacher_overlap` / `check_room_overlap`:
bucket the schedule by a key (a Python dict, so buckets appear in
first-occurrence order and a bucket's size is the key's total count)
and report every bucket of size `> 1`. -/
def overlapConflicts {κ : Type} [DecidableEq κ] (keyOf : Entry → κ)
    (msg : κ → Nat → String) (schedule : List Entry) : List String :=
  let keys := schedule.map keyOf
  (firstOccs keys).filterMap fun k =>
    let n := (keys.filter (fun x => x = k)).length
    if 1 < n then some (msg k n) else none

/-- Conflict text of `check_teacher_overlap` (formatting abbreviated). -/
def teacherOverlapMsg (k : Option Nat × Nat) (n : Nat) : String :=
  "Teacher " ++ toString k.1 ++ " has " ++ toString n ++ " classes at slot " ++ toString k.2

/-- HardConstraints.check_teacher_overlap: buckets by
`(teacher_id, time_slot_id)`. -/
def check_teacher_overlap (schedule : List Entry) : List String :=
  overlapConflicts (fun e => (e.teacher_id, e.time_slot_id)) teacherOverlapMsg schedule

/-- Conflict text of `check_room_overlap` (formatting abbreviated). -/
def roomOverlapMsg (k : Nat × Nat) (_n : Nat) : String :=
  "Room " ++ toString k.1 ++ " is double-booked at slot " ++ toString k.2

/-- HardConstraints.check_room_overlap: buckets by
`(room_id, time_slot_id)`. -/
def check_room_overlap (schedule : List Entry) : List String :=
  overlapConflicts (fun e => (e.room_id, e.time_slot_id)) roomOverlapMsg schedule

/-- HardConstraints.check_room_capacity.  The source indexes
`{g.id: g.student_count}` / `{r.id: r.capacity}` dicts and would raise
`KeyError` for an id absent from the catalog; the schedules checked
here always draw their ids from it, and an absent id yields no
conflict. -/
def check_room_capacity (schedule : List Entry) (groups : List ClassGrp)
    (rooms : List Room) : List String :=
  schedule.filterMap fun e =>
    match lastVal groups ClassGrp.id ClassGrp.student_count e.class_group_id,
        lastVal rooms Room.id Room.capacity e.room_id with
    | some sc, some cap =>
        if cap < sc then
          some ("Room " ++ toString e.room_id ++ " capacity too small for Group "
            ++ toString e.class_group_id)
        else none
    | _, _ => none

/-- GroupOverlap predicate as the specification words it (grouped by
`(group_id, time_slot_id)`).  The source's `HardConstraints` has no
such check; this definition exists only to state what the claims
assert. -/
def check_group_overlap (schedule : List Entry) : List String :=
  overlapConflicts (fun e => (e.class_group_id, e.time_slot_id))
    (fun k n => "Group " ++ toString k.1 ++ " has " ++ toString n
      ++ " classes at slot " ++ toString k.2) schedule

/-! ## Soft constraints (`SoftConstraints`) -/

/-- Non-break `(teacher, day, period)` triple of one entry, as the
grouping passes of `calculate_gaps` / `consecutive_classes_penalty`
collect it: falsy teacher ids are skipped, the slot is looked up by
`next(s for s in slots if s.id == ...)` (first match) and break slots
are skipped. -/
def softKey (slots : List TimeSlot) (e : Entry) : Option (Option Nat × String × Nat) :=
  if truthyId e.teacher_id then
    match slots.find? (fun s => s.id = e.time_slot_id) with
    | some s => if s.is_break then none else some (e.teacher_id, s.day, s.period)
    | none => none
  else none

/-- Gap count of one `(teacher, day)` period list, exactly as the
source computes it: `(last - first + 1) - len(periods)` for two or
more entries (duplicated periods can make this negative). -/
def gapsForPeriods (periods : List Nat) : ℚ :=
  if periods.length ≤ 1 then 0
  else ((periods.max?.getD 0 : ℚ) - (periods.min?.getD 0 : ℚ) + 1 - periods.length) * 10

/-- SoftConstraints.calculate_gaps. -/
def calculate_gaps (schedule : List Entry) (slots : List TimeSlot) : ℚ :=
  let items := schedule.filterMap (softKey slots)
  let keys := firstOccs (items.map fun i => (i.1, i.2.1))
  (keys.map fun k =>
    gapsForPeriods (items.filterMap fun i =>
      if (i.1, i.2.1) = k then some i.2.2 else none)).sum

/-- SoftConstraints.balance_workload, with the float square root an
explicit parameter `sqrtFn` (any model of it with `sqrtFn 0 = 0` is
accepted by the theorems below). -/
def balance_workload (sqrtFn : ℚ → ℚ) (schedule : List Entry)
    (teachers : List Teacher) : ℚ :=
  let ids := firstOccs (teachers.map Teacher.id)
  let loads : List Nat := ids.map fun tid =>
    (schedule.filter (fun e => truthyId e.teacher_id && e.teacher_id == some tid)).length
  if loads.isEmpty then 0
  else
    let mean : ℚ := (loads.map fun n => (n : ℚ)).sum / loads.length
    let variance : ℚ := ((loads.map fun n => ((n : ℚ) - mean) ^ 2).sum) / loads.length
    sqrtFn variance * 5

/-- Longest run of consecutive periods in an ascending list, mirroring
the scan in `consecutive_classes_penalty` (starts at 1 even for a
single entry). -/
def maxConsecutiveRun : List Nat → Nat
  | [] => 1
  | p :: rest =>
    (rest.foldl (fun acc q =>
        if q = acc.1 + 1 then (q, acc.2.1 + 1, max acc.2.2 (acc.2.1 + 1))
        else (q, 1, acc.2.2)) (p, 1, 1)).2.2

/-- SoftConstraints.consecutive_classes_penalty. -/
def consecutive_classes_penalty (schedule : List Entry) (slots : List TimeSlot) : ℚ :=
  let items := schedule.filterMap (softKey slots)
  let keys := firstOccs (items.map fun i => (i.1, i.2.1))
  (keys.map fun k =>
    let sorted := List.insertionSort (fun a b => a ≤ b)
      (items.filterMap fun i => if (i.1, i.2.1) = k then some i.2.2 else none)
    let m := maxConsecutiveRun sorted
    if 3 < m then ((m : ℚ) - 3) * 8 else 0).sum

/-- SoftConstraints.total_soft_score. -/
def total_soft_score (sqrtFn : ℚ → ℚ) (schedule : List Entry)
    (teachers : List Teacher) (slots : List TimeSlot) : ℚ :=
  calculate_gaps schedule slots + balance_workload sqrtFn schedule teachers
    + consecutive_classes_penalty schedule slots

/-! ## Genetic solver (`app/solver/genetic_solver.py`) -/

/-- GeneticTimetableSolver._fitness.  `slots` are the constructor's
slots; the solver keeps only the non-break ones.  The hard-penalty
list concatenates teacher overlap, room overlap and room capacity -
nothing else. -/
def ga_fitness (sqrtFn : ℚ → ℚ) (teachers : List Teacher) (groups : List ClassGrp)
    (rooms : List Room) (slots : List TimeSlot) (individual : List Entry) : ℚ :=
  let slotsNB := slots.filter (fun t => !t.is_break)
  let hConflicts := check_teacher_overlap individual ++ check_room_overlap individual
    ++ check_room_capacity individual groups rooms
  let score : ℚ := 10000 - hConflicts.length * 1000
  max 0 (score - total_soft_score sqrtFn individual teachers slotsNB)

/-- Fitness as the claim states it: the hard-violation count also
includes the specification's GroupOverlap conflicts.  Stated from the
claim for comparison; not code of the repository. -/
def claimedFitness (sqrtFn : ℚ → ℚ) (teachers : List Teacher) (groups : List ClassGrp)
    (rooms : List Room) (slots : List TimeSlot) (individual : List Entry) : ℚ :=
  let slotsNB := slots.filter (fun t => !t.is_break)
  let hConflicts := check_teacher_overlap individual ++ check_room_overlap individual
    ++ check_room_capacity individual groups rooms ++ check_group_overlap individual
  let score : ℚ := 10000 - hConflicts.length * 1000
  max 0 (score - total_soft_score sqrtFn individual teachers slotsNB)

/-- Placeholder slot for the unreachable empty-pool branch of
`random.choice` (which raises in Python). -/
def dummySlot : TimeSlot := { id := 0, day := "", period := 0, is_break := true }

/-- Placeholder room, same role as `dummySlot`. -/
def dummyRoom : Room := { id := 0, capacity := 0, type := "" }

/-- Body of `_generate_random_individual`: one gene per `(group,
subject)` pair, in loop order; `pickSlot`/`pickRoom` stand for the
`random.choice` draws of iteration `k`. -/
def buildIndividual (pickSlot pickRoom : Nat → Nat) (rooms : List Room)
    (slotsNB : List TimeSlot) : Nat → List (ClassGrp × Subject) → List Entry
  | _, [] => []
  | k, (g, s) :: rest =>
    let slot := slotsNB.getD (pickSlot k % slotsNB.length) dummySlot
    let validRooms := rooms.filter (fun r => r.type = s.required_room_type)
    let room := if validRooms.isEmpty then rooms.getD 0 dummyRoom
      else validRooms.getD (pickRoom k % validRooms.length) dummyRoom
    { id := 0, class_group_id := g.id, subject_id := s.id, room_id := room.id,
      time_slot_id := slot.id, teacher_id := s.teacher_id }
      :: buildIndividual pickSlot pickRoom rooms slotsNB (k + 1) rest

/-- GeneticTimetableSolver._generate_random_individual: iterates
`for g in groups: for s in subjects` over the catalog - the required
assignments play no part. -/
def generate_random_individual (groups : List ClassGrp) (subjects : List Subject)
    (rooms : List Room) (slots : List TimeSlot) (pickSlot pickRoom : Nat → Nat) : List Entry :=
  buildIndividual pickSlot pickRoom rooms (slots.filter (fun t => !t.is_break)) 0
    (groups.flatMap fun g => subjects.map fun s => (g, s))

/-! ## Lesson expansion (`TimetableService.generate_and_save`, step 2) -/

/-- Units contributed by one lesson: the Cartesian product of its
teacher/subject/group id lists times `lessons_per_week` occurrences,
in loop order, as `(group, subject, teacher, duration, occurrence)`. -/
def lessonUnits (l : Lesson) : List (Nat × Nat × Nat × Nat × Nat) :=
  l.teacher_ids.flatMap fun t =>
    l.subject_ids.flatMap fun s =>
      l.group_ids.flatMap fun g =>
        (List.range l.lessons_per_week).map fun occ =>
          (g, s, t, l.length_per_lesson, occ + 1)

/-- Lesson-to-required-assignment expansion loop; `assignment_id` is
the running counter. -/
def expandLessons (lessons : List Lesson) : List Assignment :=
  ((lessons.flatMap lessonUnits).enum).map fun p =>
    { assignment_id := p.1, group_id := p.2.1, subject_id := p.2.2.1,
      teacher_id := some p.2.2.2.1, duration := p.2.2.2.2.1, occurrence := p.2.2.2.2.2 }

/-! ## CSP solver, assignment-based path (`CspTimetableSolver.solve`)

The CP-SAT model is embedded as the collection of linear constraints
the source emits over the boolean variables `x[(idx, room_id,
slot_id)]`, phrased for an arbitrary valuation `val`.  A successful
`solver.Solve` returns some valuation satisfying every emitted
constraint; `_extract_solution_from_assignments` then decodes the
set-true variables.  Nothing else about the search is assumed. -/

/-- Variable keys in creation order: `for idx: for r in rooms: for t in
slots (skipping breaks)`. -/
def assignVarKeys (n : Nat) (rooms : List Room) (slots : List TimeSlot) :
    List (Nat × Nat × Nat) :=
  (List.range n).flatMap fun idx =>
    rooms.flatMap fun r =>
      (slots.filter (fun t => !t.is_break)).map fun t => (idx, r.id, t.id)

/-- Keys of the `self.vars` dict (duplicate keys collapse, first
position kept, exactly as a Python dict behaves). -/
def assignAllKeys (n : Nat) (rooms : List Room) (slots : List TimeSlot) :
    List (Nat × Nat × Nat) :=
  firstOccs (assignVarKeys n rooms slots)

/-- Variables gathered for constraint C1 of assignment `idx`
(`for r in rooms: for t in slots: if not t.is_break and (idx, r.id,
t.id) in self.vars`). -/
def covVarsFor (allKeys : List (Nat × Nat × Nat)) (rooms : List Room)
    (slots : List TimeSlot) (idx : Nat) : List (Nat × Nat × Nat) :=
  rooms.flatMap fun r =>
    (slots.filter (fun t => !t.is_break)).filterMap fun t =>
      if (idx, r.id, t.id) ∈ allKeys then some (idx, r.id, t.id) else none

/-- Constraint C1 (coverage): `sum(assignment_vars) == 1` whenever the
gathered list is non-empty. -/
def covOk (A : List Assignment) (rooms : List Room) (slots : List TimeSlot)
    (val : Nat × Nat × Nat → Bool) : Bool :=
  let allKeys := assignAllKeys A.length rooms slots
  (List.range A.length).all fun idx =>
    let avars := covVarsFor allKeys rooms slots idx
    avars.isEmpty || (avars.filter val).length = 1

/-- Variables gathered for the group constraint C2 at slot `t` for
group id `gid` (`for idx, a in enumerate: if a.group_id == gid: for r
in rooms: if key in self.vars`). -/
def groupVarsFor (A : List Assignment) (rooms : List Room)
    (allKeys : List (Nat × Nat × Nat)) (gid : Nat) (t : TimeSlot) :
    List (Nat × Nat × Nat) :=
  (List.range A.length).flatMap fun idx =>
    match A.get? idx with
    | some a =>
      if a.group_id = gid then
        rooms.filterMap fun r =>
          if (idx, r.id, t.id) ∈ allKeys then some (idx, r.id, t.id) else none
      else []
    | none => []

/-- Constraint C2 (group exclusion): at most one class per group per
non-break slot. -/
def groupOk (A : List Assignment) (rooms : List Room) (slots : List TimeSlot)
    (val : Nat × Nat × Nat → Bool) : Bool :=
  let allKeys := assignAllKeys A.length rooms slots
  slots.all fun t =>
    t.is_break ||
      (firstOccs (A.map Assignment.group_id)).all fun gid =>
        ((groupVarsFor A rooms allKeys gid t).filter val).length ≤ 1

/-- Variables gathered for the room constraint C3 at `(r, t)`
(`for idx in range(n): if key in self.vars`). -/
def roomVarsFor (n : Nat) (allKeys : List (Nat × Nat × Nat)) (r : Room)
    (t : TimeSlot) : List (Nat × Nat × Nat) :=
  (List.range n).filterMap fun idx =>
    if (idx, r.id, t.id) ∈ allKeys then some (idx, r.id, t.id) else none

/-- Constraint C3 (room exclusion): at most one class per room per
non-break slot. -/
def roomOk (A : List Assignment) (rooms : List Room) (slots : List TimeSlot)
    (val : Nat × Nat × Nat → Bool) : Bool :=
  let allKeys := assignAllKeys A.length rooms slots
  rooms.all fun r =>
    slots.all fun t =>
      t.is_break || ((roomVarsFor A.length allKeys r t).filter val).length ≤ 1

/-- The distinct truthy teacher ids of the assignments
(`set(a['teacher_id'] for a in A if a['teacher_id'])`). -/
def truthyTeacherIds (A : List Assignment) : List (Option Nat) :=
  firstOccs (A.filterMap fun a =>
    if truthyId a.teacher_id then some a.teacher_id else none)

/-- Variables gathered for the teacher constraint C4 at slot `t` for
teacher value `tid` (`for idx, a in enumerate: if a.get('teacher_id')
== tid: for r in rooms: if key in self.vars`). -/
def teacherVarsFor (A : List Assignment) (rooms : List Room)
    (allKeys : List (Nat × Nat × Nat)) (tid : Option Nat) (t : TimeSlot) :
    List (Nat × Nat × Nat) :=
  (List.range A.length).flatMap fun idx =>
    match A.get? idx with
    | some a =>
      if a.teacher_id = tid then
        rooms.filterMap fun r =>
          if (idx, r.id, t.id) ∈ allKeys then some (idx, r.id, t.id) else none
      else []
    | none => []

/-- Constraint C4 (teacher exclusion): at most one class per (truthy)
teacher per non-break slot.  (The daily-load constraint C5 of the
source is commented out and emits nothing.) -/
def teachOk (A : List Assignment) (rooms : List Room) (slots : List TimeSlot)
    (val : Nat × Nat × Nat → Bool) : Bool :=
  let allKeys := assignAllKeys A.length rooms slots
  slots.all fun t =>
    t.is_break ||
      (truthyTeacherIds A).all fun tid =>
        ((teacherVarsFor A rooms allKeys tid t).filter val).length ≤ 1

/-- All constraints the assignment-based model emits. -/
def satAssign (A : List Assignment) (rooms : List Room) (slots : List TimeSlot)
    (val : Nat × Nat × Nat → Bool) : Bool :=
  covOk A rooms slots val && groupOk A rooms slots val
    && roomOk A rooms slots val && teachOk A rooms slots val

/-- CspTimetableSolver._extract_solution_from_assignments: one entry
per set-true variable, in `self.vars` insertion order, with group /
subject / teacher read off the originating assignment.  (The decoded
dict's display-only `day`/`period` copies are dropped; the persisted
entry uses only the ids.) -/
def extractAssign (A : List Assignment) (rooms : List Room) (slots : List TimeSlot)
    (val : Nat × Nat × Nat → Bool) : List Entry :=
  (assignAllKeys A.length rooms slots).filterMap fun k =>
    if val k then
      (A.get? k.1).map fun a =>
        { id := 0, class_group_id := a.group_id, subject_id := a.subject_id,
          room_id := k.2.1, time_slot_id := k.2.2, teacher_id := a.teacher_id }
    else none

/-- Possible successful outputs of the assignment-based path: the
decode of some valuation satisfying every emitted constraint. -/
def cspAssignProduces (A : List Assignment) (rooms : List Room)
    (slots : List TimeSlot) (sched : List Entry) : Prop :=
  ∃ val : Nat × Nat × Nat → Bool,
    satAssign A rooms slots val = true ∧ sched = extractAssign A rooms slots val

/-! ## CSP solver, cartesian fallback (`_solve_cartesian`)

Taken when `required_assignments` is empty: variables are
`x[(g.id, s.id, r.id, t.id)]` over the whole catalog. -/

/-- Fallback variable keys in creation order. -/
def cartVarKeys (groups : List ClassGrp) (subjects : List Subject)
    (rooms : List Room) (slots : List TimeSlot) : List (Nat × Nat × Nat × Nat) :=
  groups.flatMap fun g =>
    subjects.flatMap fun s =>
      rooms.flatMap fun r =>
        (slots.filter (fun t => !t.is_break)).map fun t => (g.id, s.id, r.id, t.id)

/-- Keys of the fallback `self.vars` dict. -/
def cartAllKeys (groups : List ClassGrp) (subjects : List Subject)
    (rooms : List Room) (slots : List TimeSlot) : List (Nat × Nat × Nat × Nat) :=
  firstOccs (cartVarKeys groups subjects rooms slots)

/-- Fallback constraint C1: every (group, subject) is placed exactly
once, whenever it has variables. -/
def cartCovOk (groups : List ClassGrp) (subjects : List Subject)
    (rooms : List Room) (slots : List TimeSlot)
    (val : Nat × Nat × Nat × Nat → Bool) : Bool :=
  let allKeys := cartAllKeys groups subjects rooms slots
  groups.all fun g =>
    subjects.all fun s =>
      let svars := rooms.flatMap fun r =>
        (slots.filter (fun t => !t.is_break)).filterMap fun t =>
          if (g.id, s.id, r.id, t.id) ∈ allKeys then some (g.id, s.id, r.id, t.id)
          else none
      svars.isEmpty || (svars.filter val).length = 1

/-- Fallback constraint C2: group exclusion per non-break slot. -/
def cartGroupOk (groups : List ClassGrp) (subjects : List Subject)
    (rooms : List Room) (slots : List TimeSlot)
    (val : Nat × Nat × Nat × Nat → Bool) : Bool :=
  let allKeys := cartAllKeys groups subjects rooms slots
  groups.all fun g =>
    slots.all fun t =>
      t.is_break ||
        ((subjects.flatMap fun s =>
          rooms.filterMap fun r =>
            if (g.id, s.id, r.id, t.id) ∈ allKeys then some (g.id, s.id, r.id, t.id)
            else none).filter val).length ≤ 1

/-- Fallback constraint C3: room exclusion per non-break slot. -/
def cartRoomOk (groups : List ClassGrp) (subjects : List Subject)
    (rooms : List Room) (slots : List TimeSlot)
    (val : Nat × Nat × Nat × Nat → Bool) : Bool :=
  let allKeys := cartAllKeys groups subjects rooms slots
  rooms.all fun r =>
    slots.all fun t =>
      t.is_break ||
        ((groups.flatMap fun g =>
          subjects.filterMap fun s =>
            if (g.id, s.id, r.id, t.id) ∈ allKeys then some (g.id, s.id, r.id, t.id)
            else none).filter val).length ≤ 1

/-- Fallback constraint C4: teacher exclusion, over the distinct
truthy `subject.teacher_id` values. -/
def cartTeachOk (groups : List ClassGrp) (subjects : List Subject)
    (rooms : List Room) (slots : List TimeSlot)
    (val : Nat × Nat × Nat × Nat → Bool) : Bool :=
  let allKeys := cartAllKeys groups subjects rooms slots
  (firstOccs ((subjects.filter fun s => truthyId s.teacher_id).map
      Subject.teacher_id)).all fun tid =>
    slots.all fun t =>
      t.is_break ||
        (((subjects.filter fun s => s.teacher_id = tid).flatMap fun s =>
          groups.flatMap fun g =>
            rooms.filterMap fun r =>
              if (g.id, s.id, r.id, t.id) ∈ allKeys then some (g.id, s.id, r.id, t.id)
              else none).filter val).length ≤ 1

/-- All constraints the cartesian fallback emits. -/
def cartSat (groups : List ClassGrp) (subjects : List Subject)
    (rooms : List Room) (slots : List TimeSlot)
    (val : Nat × Nat × Nat × Nat → Bool) : Bool :=
  cartCovOk groups subjects rooms slots val && cartGroupOk groups subjects rooms slots val
    && cartRoomOk groups subjects rooms slots val
    && cartTeachOk groups subjects rooms slots val

/-- CspTimetableSolver._extract_solution (fallback decoder).  For every
set-true variable one entry is emitted, with the teacher looked up in
`{s.id: s.teacher_id}`; additionally, when the subject is a multi-slot
lab and the chosen slot's period is exactly 5, a second entry is
appended at the first slot of the same day with period 6 - the break
flag of that slot is never consulted. -/
def cartExtract (subjects : List Subject) (slots : List TimeSlot)
    (allKeys : List (Nat × Nat × Nat × Nat))
    (val : Nat × Nat × Nat × Nat → Bool) : List Entry :=
  allKeys.flatMap fun k =>
    if val k then
      let gid := k.1
      let sid := k.2.1
      let rid := k.2.2.1
      let tid := k.2.2.2
      let teacher := (lastVal subjects Subject.id Subject.teacher_id sid).getD none
      let mainEntry : Entry :=
        { id := 0, class_group_id := gid, subject_id := sid, room_id := rid,
          time_slot_id := tid, teacher_id := teacher }
      match lastVal subjects Subject.id (fun s => s) sid,
          lastVal slots TimeSlot.id (fun s => s) tid with
      | some subj, some slot =>
        if subj.is_lab && decide (1 < subj.duration_slots) && slot.period = 5 then
          match slots.find? (fun t2 => t2.day = slot.day && t2.period = 6) with
          | some p6 =>
            [mainEntry,
              { id := 0, class_group_id := gid, subject_id := sid, room_id := rid,
                time_slot_id := p6.id, teacher_id := teacher }]
          | none => [mainEntry]
        else [mainEntry]
      | _, _ => [mainEntry]
    else []

/-- Possible successful outputs of the cartesian fallback. -/
def cspCartProduces (groups : List ClassGrp) (subjects : List Subject)
    (rooms : List Room) (slots : List TimeSlot) (sched : List Entry) : Prop :=
  ∃ val : Nat × Nat × Nat × Nat → Bool,
    cartSat groups subjects rooms slots val = true ∧
      sched = cartExtract subjects slots (cartAllKeys groups subjects rooms slots) val

/-- CspTimetableSolver.solve: the fallback handles an empty
`required_assignments` list, the assignment-based model everything
else.  `cspSolveProduces ... sched` says `sched` is a possible
successful return value. -/
def cspSolveProduces (A : List Assignment) (groups : List ClassGrp)
    (subjects : List Subject) (rooms : List Room) (slots : List TimeSlot)
    (sched : List Entry) : Prop :=
  if A.isEmpty then cspCartProduces groups subjects rooms slots sched
  else cspAssignProduces A rooms slots sched


/-! ## Generation service (`TimetableService`) -/

/-- Solver dispatch of `generate_and_save` / `generate_in_background`.
The genetic branch constructs `GeneticTimetableSolver(teachers,
subjects, rooms, groups, slots, required_assignments)` - but that
constructor's sixth parameter is `pop_size: int`, so the assignment
list is bound to `pop_size` and `range(self.pop_size)` inside
`solve()` raises `TypeError` before any individual is built.  The csp
branch returns whatever `CspTimetableSolver.solve` returned (`none`
models the infeasible/timeout result). -/
def run_solver (method : String) (cspResult : Option (List Entry)) :
    Except String (Option (List Entry)) :=
  if method = "genetic" then
    Except.error ("TypeError: 'list' object cannot be interpreted as an integer")
  else Except.ok cspResult

/-- TimetableService.generate_and_save, from the solver call on: an
exception propagates (no version row exists yet), a falsy schedule
(`None` or `[]`) raises HTTP 409, and otherwise a version is created,
entries are attached and the version is committed with
`status="active"`, `is_valid=True`; `fitness_score` is never
assigned and keeps its NULL default. -/
def generate_and_save (solveOutcome : Except String (Option (List Entry))) :
    Option Version :=
  match solveOutcome with
  | Except.error _ => none
  | Except.ok none => none
  | Except.ok (some []) => none
  | Except.ok (some es) =>
    some { status := "active", is_valid := true, fitness_score := none, entries := es }

/-- TimetableService.generate_in_background, acting on the version row
the router pre-created with `status="processing"` (and the column
defaults `is_valid=True`, `fitness_score=NULL`): a truthy schedule
makes it `active`/valid, a falsy one `failed`/invalid, and any raised
exception is caught and recorded as `status="error"` (the other
fields keep their previous values). -/
def generate_in_background (solveOutcome : Except String (Option (List Entry))) :
    Version :=
  match solveOutcome with
  | Except.error _ =>
    { status := "error", is_valid := true, fitness_score := none, entries := [] }
  | Except.ok none =>
    { status := "failed", is_valid := false, fitness_score := none, entries := [] }
  | Except.ok (some []) =>
    { status := "failed", is_valid := false, fitness_score := none, entries := [] }
  | Except.ok (some es) =>
    { status := "active", is_valid := true, fitness_score := none, entries := es }

/-! ## Analytics (`TimetableService.get_analytics`) -/

/-- Conflict list of the analytics report: teacher overlap followed by
room overlap, computed over the version's entries (lines 137-138 of
`timetable_service.py`). -/
def analyticsConflicts (entries : List Entry) : List String :=
  check_teacher_overlap entries ++ check_room_overlap entries

/-- One utilization record of the analytics report. -/
structure UtilStat where
  id : Nat
  assigned_slots : Nat
  utilization_percentage : ℚ
deriving DecidableEq

/-- Teacher-utilization pass: `(assigned / max_hours * 100) if
t.max_hours_per_week else 0` - the truthiness test guards the NULL
and zero divisors. -/
def teacher_stats (teachers : List Teacher) (entries : List Entry) : List UtilStat :=
  teachers.map fun t =>
    let assigned := (entries.filter (fun e => e.teacher_id == some t.id)).length
    { id := t.id, assigned_slots := assigned,
      utilization_percentage :=
        match t.max_hours_per_week with
        | some m => if m = 0 then 0 else (assigned : ℚ) / m * 100
        | none => 0 }

/-- Room-utilization pass: the denominator is the count of non-break
slots, with the same truthiness guard. -/
def room_stats (rooms : List Room) (slots : List TimeSlot) (entries : List Entry) :
    List UtilStat :=
  let totalSlots := (slots.filter (fun t => !t.is_break)).length
  rooms.map fun r =>
    let assigned := (entries.filter (fun e => e.room_id == r.id)).length
    { id := r.id, assigned_slots := assigned,
      utilization_percentage :=
        if totalSlots = 0 then 0 else (assigned : ℚ) / totalSlots * 100 }

/-! ## Substitute scoring (`app/services/auto_assignment.py`)

The scorer's database view is the teacher and subject tables plus the
entries of the version the scorer was built for. -/

/-- Database snapshot a scorer / auto-assignment call works against. -/
structure Db where
  teachers : List Teacher
  subjects : List Subject
  entries : List Entry
deriving DecidableEq

/-- Scoring record (presentation fields - names, reasons, breakdown
echo - dropped; every field a decision is based on is kept). -/
structure ScoreResult where
  teacher_id : Nat
  score : ℚ
  available : Bool
  conflicting_slots : List Nat
deriving DecidableEq

/-- SubstituteScorer._check_availability: the version's entries with
this teacher in one of the required slots, in table order. -/
def check_availability (db : Db) (teacherId : Nat) (timeSlotIds : List Nat) :
    Bool × List Nat :=
  let conflicting := ((db.entries.filter fun e =>
    e.teacher_id == some teacherId && e.time_slot_id ∈ timeSlotIds).map
      Entry.time_slot_id)
  (conflicting.isEmpty, conflicting)

/-- Python's substring containment `a in b` on lower-cased names. -/
def substrOf (a b : String) : Bool :=
  decide (a.toList <:+: b.toList)

/-- SubstituteScorer._calculate_subject_expertise_score: 80 for an
exact (case-insensitive) match, 80 * 0.7 for a substring relation
either way, otherwise 0. -/
def calculate_subject_expertise_score (db : Db) (teacherId : Nat)
    (requiredSubjects : List String) : ℚ :=
  let teacherSubjectNames :=
    firstOccs ((db.subjects.filter fun s => s.teacher_id == some teacherId).map
      fun s => s.name.toLower)
  let requiredNames := firstOccs (requiredSubjects.map String.toLower)
  if teacherSubjectNames.any fun n => n ∈ requiredNames then 80
  else if teacherSubjectNames.any fun ts =>
      requiredNames.any fun rs => substrOf ts rs || substrOf rs ts then
    80 * (7 / 10)
  else 0

/-- SubstituteScorer._calculate_workload_score.  The divisor is
`teacher.max_hours_per_week if teacher else max_hours_threshold`:
only a *missing teacher row* is guarded.  A NULL `max_hours_per_week`
raises `TypeError` and a zero one `ZeroDivisionError`; both faults
are `none`. -/
def calculate_workload_score (db : Db) (teacherId : Nat)
    (maxHoursThreshold : Nat) : Option ℚ :=
  let currentClasses := (db.entries.filter fun e => e.teacher_id == some teacherId).length
  let maxHours : Option Nat :=
    match db.teachers.find? (fun t => t.id = teacherId) with
    | some t => t.max_hours_per_week
    | none => some maxHoursThreshold
  match maxHours with
  | none => none
  | some 0 => none
  | some m =>
    let utilization : ℚ := (currentClasses : ℚ) / m * 100
    some (max 0 (50 * (1 - utilization / 100)))

/-- SubstituteScorer.score_substitute: a missing candidate or any
conflicting slot short-circuits with `score = 0, available = False`
(the availability check runs before any other scoring); otherwise the
total is availability (100) + subject expertise + workload.  `none`
is the workload fault propagating out of the call. -/
def score_substitute (db : Db) (candidateId : Nat) (requiredTimeSlots : List Nat)
    (requiredSubjects : List String) (maxHoursThreshold : Nat) :
    Option ScoreResult :=
  match db.teachers.find? (fun t => t.id = candidateId) with
  | none =>
    some { teacher_id := candidateId, score := 0, available := false,
           conflicting_slots := [] }
  | some _ =>
    let avail := check_availability db candidateId requiredTimeSlots
    if !avail.1 then
      some { teacher_id := candidateId, score := 0, available := false,
             conflicting_slots := avail.2 }
    else
      match calculate_workload_score db candidateId maxHoursThreshold with
      | none => none
      | some workloadScore =>
        some { teacher_id := candidateId,
               score := 100
                 + calculate_subject_expertise_score db candidateId requiredSubjects
                 + workloadScore,
               available := true, conflicting_slots := [] }

/-! ## Auto-assignment (`AutoAssignmentService.auto_assign_substitutes`) -/

/-- Entries of the latest version taught by the absent teacher. -/
def affectedEntries (db : Db) (teacherId : Nat) : List Entry :=
  db.entries.filter fun e => e.teacher_id == some teacherId

/-- Candidate scoring loop: score every other teacher in table order,
keeping the available ones; a scoring fault aborts the whole call
(before any substitution is added). -/
def scoreAvailable (db : Db) (timeSlotIds : List Nat)
    (requiredSubjects : List String) : List Teacher → Option (List ScoreResult)
  | [] => some []
  | c :: rest =>
    match score_substitute db c.id timeSlotIds requiredSubjects 18 with
    | none => none
    | some r =>
      match scoreAvailable db timeSlotIds requiredSubjects rest with
      | none => none
      | some rs => some (if r.available then r :: rs else rs)

/-- Stable descending sort by score
(`scored_candidates.sort(key=..., reverse=True)`). -/
def sortByScoreDesc (l : List ScoreResult) : List ScoreResult :=
  List.insertionSort (fun a b => b.score ≤ a.score) l

/-- AutoAssignmentService.auto_assign_substitutes, against the latest
version's snapshot `db` and the pre-existing substitution table
`subs0`.  The result is `(substitution table after the single commit,
success flag)`; `none` is a propagated scoring fault (nothing was
committed).  A missing absent teacher or an empty affected list
returns without touching the table. -/
def auto_assign_substitutes (db : Db) (subs0 : List Substitution)
    (teacherId : Nat) (date : String) : Option (List Substitution × Bool) :=
  match db.teachers.find? (fun t => t.id = teacherId) with
  | none => some (subs0, false)
  | some _ =>
    let entries := affectedEntries db teacherId
    if entries.isEmpty then some (subs0, true)
    else
      let timeSlotIds := entries.map Entry.time_slot_id
      let subjectIds := firstOccs (entries.map Entry.subject_id)
      let requiredSubjects :=
        ((db.subjects.filter fun s => s.id ∈ subjectIds).map Subject.name)
      let candidates := db.teachers.filter fun t => t.id ≠ teacherId
      match scoreAvailable db timeSlotIds requiredSubjects candidates with
      | none => none
      | some scored =>
        match sortByScoreDesc scored with
        | best :: _ =>
          some (subs0 ++ entries.map fun e =>
            { date := date, timetable_entry_id := e.id, original_teacher_id := teacherId,
              substitute_teacher_id := some best.teacher_id, status := "confirmed" },
            true)
        | [] =>
          some (subs0 ++ entries.map fun e =>
            { date := date, timetable_entry_id := e.id, original_teacher_id := teacherId,
              substitute_teacher_id := none, status := "cancelled" },
            false)

/-! ## List lemmas for the dict and counting models -/

theorem foldl_insert_mem {α : Type} [DecidableEq α] (l : List α) (acc : List α) (a : α) :
    (a ∈ l.foldl (fun acc k => if k ∈ acc then acc else acc ++ [k]) acc) ↔
      a ∈ acc ∨ a ∈ l := by
  induction l generalizing acc with
  | nil => simp
  | cons x xs ih =>
    by_cases hx : x ∈ acc
    · simp only [List.foldl_cons, if_pos hx, ih, List.mem_cons]
      constructor
      · rintro (h | h)
        · exact Or.inl h
        · exact Or.inr (Or.inr h)
      · rintro (h | h | h)
        · exact Or.inl h
        · exact Or.inl (h ▸ hx)
        · exact Or.inr h
    · simp only [List.foldl_cons, if_neg hx, ih, List.mem_append, List.mem_singleton,
        List.mem_cons]
      tauto

theorem mem_firstOccs {α : Type} [DecidableEq α] (l : List α) (a : α) :
    a ∈ firstOccs l ↔ a ∈ l := by
  unfold firstOccs
  rw [foldl_insert_mem]
  simp

theorem foldl_insert_nodup {α : Type} [DecidableEq α] (l : List α) (acc : List α)
    (h : acc.Nodup) :
    (l.foldl (fun acc k => if k ∈ acc then acc else acc ++ [k]) acc).Nodup := by
  induction l generalizing acc with
  | nil => exact h
  | cons x xs ih =>
    by_cases hx : x ∈ acc
    · simpa only [List.foldl_cons, if_pos hx] using ih acc h
    · simp only [List.foldl_cons, if_neg hx]
      exact ih _ ((List.nodup_append_comm).mp (List.nodup_cons.mpr ⟨hx, h⟩))

theorem nodup_firstOccs {α : Type} [DecidableEq α] (l : List α) : (firstOccs l).Nodup :=
  foldl_insert_nodup l [] List.nodup_nil

theorem two_le_length_of_mem_ne {α : Type} {l : List α} {a b : α}
    (ha : a ∈ l) (hb : b ∈ l) (hne : a ≠ b) : 2 ≤ l.length := by
  match l, ha with
  | x :: xs, ha =>
    match xs, hb with
    | [], hb =>
      simp only [List.mem_singleton] at ha hb
      exact absurd (ha.trans hb.symm) hne
    | y :: ys, _ => simp [Nat.succ_le_succ, Nat.le_add_left]

theorem exists_two_of_countP {α : Type} {l : List α} (hnd : l.Nodup) {p : α → Bool}
    (h : 2 ≤ l.countP p) :
    ∃ a b, a ∈ l ∧ b ∈ l ∧ a ≠ b ∧ p a = true ∧ p b = true := by
  rw [List.countP_eq_length_filter] at h
  match hf : l.filter p with
  | [] => rw [hf] at h; simp at h
  | [x] => rw [hf] at h; simp at h
  | x :: y :: t =>
    have hx : x ∈ l.filter p := by rw [hf]; exact List.mem_cons_self ..
    have hy : y ∈ l.filter p := by rw [hf]; simp
    have hnd' : (l.filter p).Nodup := hnd.filter p
    have hxy : x ≠ y := by
      rw [hf] at hnd'
      rcases List.nodup_cons.mp hnd' with ⟨hxm, _⟩
      intro he
      exact hxm (he ▸ List.mem_cons_self ..)
    rcases List.mem_filter.mp hx with ⟨hx1, hx2⟩
    rcases List.mem_filter.mp hy with ⟨hy1, hy2⟩
    exact ⟨x, y, hx1, hy1, hxy, hx2, hy2⟩

theorem overlapConflicts_eq_nil {κ : Type} [DecidableEq κ] (keyOf : Entry → κ)
    (msg : κ → Nat → String) (schedule : List Entry)
    (h : ∀ k, ((schedule.map keyOf).filter (fun x => x = k)).length ≤ 1) :
    overlapConflicts keyOf msg schedule = [] := by
  unfold overlapConflicts
  simp only
  rw [List.filterMap_eq_nil_iff]
  intro k _
  rw [if_neg (Nat.not_lt.mpr (h k))]

theorem mem_assignVarKeys {n : Nat} {rooms : List Room} {slots : List TimeSlot}
    {k : Nat × Nat × Nat} :
    k ∈ assignVarKeys n rooms slots ↔
      k.1 < n ∧ (∃ r ∈ rooms, r.id = k.2.1) ∧
        ∃ t ∈ slots, t.is_break = false ∧ t.id = k.2.2 := by
  obtain ⟨i, rid, tid⟩ := k
  constructor
  · intro hk
    simp only [assignVarKeys, List.mem_flatMap, List.mem_range, List.mem_map,
      List.mem_filter, Bool.not_eq_true'] at hk
    obtain ⟨idx, hidx, r, hr, t, ⟨htm, htb⟩, he⟩ := hk
    simp only [Prod.mk.injEq] at he
    obtain ⟨h1, h2, h3⟩ := he
    subst h1; subst h2; subst h3
    exact ⟨hidx, ⟨r, hr, rfl⟩, ⟨t, htm, htb, rfl⟩⟩
  · rintro ⟨hi, ⟨r, hr, hrid⟩, ⟨t, htm, htb, htid⟩⟩
    simp only [assignVarKeys, List.mem_flatMap, List.mem_range, List.mem_map,
      List.mem_filter, Bool.not_eq_true']
    exact ⟨i, hi, r, hr, t, ⟨htm, htb⟩, by simp [hrid, htid]⟩

theorem mem_assignAllKeys {n : Nat} {rooms : List Room} {slots : List TimeSlot}
    {k : Nat × Nat × Nat} :
    k ∈ assignAllKeys n rooms slots ↔
      k.1 < n ∧ (∃ r ∈ rooms, r.id = k.2.1) ∧
        ∃ t ∈ slots, t.is_break = false ∧ t.id = k.2.2 := by
  rw [assignAllKeys, mem_firstOccs]
  exact mem_assignVarKeys

theorem nodup_assignAllKeys (n : Nat) (rooms : List Room) (slots : List TimeSlot) :
    (assignAllKeys n rooms slots).Nodup := by
  unfold assignAllKeys
  exact nodup_firstOccs _


theorem extract_two_keys {κ : Type} [DecidableEq κ] (A : List Assignment)
    (rooms : List Room) (slots : List TimeSlot) (val : Nat × Nat × Nat → Bool)
    (keyOf : Entry → κ) (key : κ)
    (h : 1 < (((extractAssign A rooms slots val).map keyOf).filter
      (fun x => x = key)).length) :
    ∃ k1 k2, k1 ∈ assignAllKeys A.length rooms slots ∧
      k2 ∈ assignAllKeys A.length rooms slots ∧ k1 ≠ k2 ∧
      val k1 = true ∧ val k2 = true ∧
      (∃ a1, A.get? k1.1 = some a1 ∧ keyOf
        { id := 0, class_group_id := a1.group_id, subject_id := a1.subject_id,
          room_id := k1.2.1, time_slot_id := k1.2.2, teacher_id := a1.teacher_id } = key) ∧
      ∃ a2, A.get? k2.1 = some a2 ∧ keyOf
        { id := 0, class_group_id := a2.group_id, subject_id := a2.subject_id,
          room_id := k2.2.1, time_slot_id := k2.2.2, teacher_id := a2.teacher_id } = key := by
  have h2 : 2 ≤ ((extractAssign A rooms slots val).map keyOf).countP
      (fun x => x = key) := by
    rw [List.countP_eq_length_filter]
    omega
  unfold extractAssign at h2
  rw [List.map_filterMap, List.countP_filterMap] at h2
  obtain ⟨k1, k2, hk1, hk2, hne, hq1, hq2⟩ :=
    exists_two_of_countP (nodup_assignAllKeys A.length rooms slots) h2
  have unpack : ∀ k : Nat × Nat × Nat,
      (Option.map (fun x => decide (x = key))
        (Option.map keyOf (if val k = true then (A.get? k.1).map (fun a =>
          { id := 0, class_group_id := a.group_id, subject_id := a.subject_id,
            room_id := k.2.1, time_slot_id := k.2.2, teacher_id := a.teacher_id })
          else none))).getD false = true →
      val k = true ∧ ∃ a, A.get? k.1 = some a ∧ keyOf
        { id := 0, class_group_id := a.group_id, subject_id := a.subject_id,
          room_id := k.2.1, time_slot_id := k.2.2, teacher_id := a.teacher_id } = key := by
    intro k hq
    by_cases hv : val k
    · rw [if_pos hv] at hq
      cases hget : A.get? k.1 with
      | none => rw [hget] at hq; simp at hq
      | some a =>
        rw [hget] at hq
        simp only [Option.map_some', Option.getD_some, decide_eq_true_eq] at hq
        exact ⟨hv, a, rfl, hq⟩
    · rw [if_neg hv] at hq; simp at hq
  exact ⟨k1, k2, hk1, hk2, hne, (unpack k1 hq1).1, (unpack k2 hq2).1,
    (unpack k1 hq1).2, (unpack k2 hq2).2⟩

theorem extractAssign_teacher_overlap_nil (A : List Assignment) (rooms : List Room)
    (slots : List TimeSlot) (val : Nat × Nat × Nat → Bool)
    (hteach : teachOk A rooms slots val = true)
    (ht : ∀ a ∈ A, truthyId a.teacher_id = true) :
    check_teacher_overlap (extractAssign A rooms slots val) = [] := by
  unfold check_teacher_overlap
  apply overlapConflicts_eq_nil
  intro key
  by_contra hgt
  rw [Nat.not_le] at hgt
  obtain ⟨k1, k2, hk1, hk2, hne, hv1, hv2, ⟨a1, hget1, hkey1⟩, ⟨a2, hget2, hkey2⟩⟩ :=
    extract_two_keys A rooms slots val _ key hgt
  obtain ⟨kt, ks⟩ := key
  obtain ⟨i1, r1, s1⟩ := k1
  obtain ⟨i2, r2, s2⟩ := k2
  simp only [Prod.mk.injEq] at hkey1 hkey2
  obtain ⟨hkt1, hks1⟩ := hkey1
  obtain ⟨hkt2, hks2⟩ := hkey2
  subst hkt1
  subst hks1
  rw [hks2] at hget2 hk2 hne hv2
  obtain ⟨hi1, ⟨ra, hra, hraid⟩, ⟨t1, ht1m, ht1b, ht1id⟩⟩ := mem_assignAllKeys.mp hk1
  obtain ⟨hi2, ⟨rb, hrb, hrbid⟩, ⟨t2, ht2m, ht2b, ht2id⟩⟩ := mem_assignAllKeys.mp hk2
  have ha1A : a1 ∈ A := List.get?_mem hget1
  have htid : a1.teacher_id ∈ truthyTeacherIds A := by
    unfold truthyTeacherIds
    rw [mem_firstOccs]
    exact List.mem_filterMap.mpr ⟨a1, ha1A, by rw [if_pos (ht a1 ha1A)]⟩
  simp only [teachOk, List.all_eq_true] at hteach
  have hcon := hteach t1 ht1m
  rw [ht1b] at hcon
  simp only [Bool.false_or, List.all_eq_true] at hcon
  have hlen := hcon a1.teacher_id htid
  rw [decide_eq_true_eq] at hlen
  have hm1 : (i1, r1, s1) ∈
      teacherVarsFor A rooms (assignAllKeys A.length rooms slots) a1.teacher_id t1 := by
    unfold teacherVarsFor
    apply List.mem_flatMap.mpr
    refine ⟨i1, List.mem_range.mpr hi1, ?_⟩
    simp only [hget1, if_pos rfl]
    apply List.mem_filterMap.mpr
    refine ⟨ra, hra, ?_⟩
    rw [hraid, ht1id, if_pos hk1]
  have hm2 : (i2, r2, s1) ∈
      teacherVarsFor A rooms (assignAllKeys A.length rooms slots) a1.teacher_id t1 := by
    unfold teacherVarsFor
    apply List.mem_flatMap.mpr
    refine ⟨i2, List.mem_range.mpr hi2, ?_⟩
    simp only [hget2, hkt2, if_pos rfl]
    apply List.mem_filterMap.mpr
    refine ⟨rb, hrb, ?_⟩
    rw [hrbid, ht1id, if_pos hk2]
  have hfil1 := List.mem_filter.mpr ⟨hm1, hv1⟩
  have hfil2 := List.mem_filter.mpr ⟨hm2, hv2⟩
  have h2 := two_le_length_of_mem_ne hfil1 hfil2 hne
  omega

theorem extractAssign_room_overlap_nil (A : List Assignment) (rooms : List Room)
    (slots : List TimeSlot) (val : Nat × Nat × Nat → Bool)
    (hroom : roomOk A rooms slots val = true) :
    check_room_overlap (extractAssign A rooms slots val) = [] := by
  unfold check_room_overlap
  apply overlapConflicts_eq_nil
  intro key
  by_contra hgt
  rw [Nat.not_le] at hgt
  obtain ⟨k1, k2, hk1, hk2, hne, hv1, hv2, ⟨a1, hget1, hkey1⟩, ⟨a2, hget2, hkey2⟩⟩ :=
    extract_two_keys A rooms slots val _ key hgt
  obtain ⟨kr, ks⟩ := key
  obtain ⟨i1, r1, s1⟩ := k1
  obtain ⟨i2, r2, s2⟩ := k2
  simp only [Prod.mk.injEq] at hkey1 hkey2
  obtain ⟨hkr1, hks1⟩ := hkey1
  obtain ⟨hkr2, hks2⟩ := hkey2
  subst hkr1
  subst hks1
  rw [hks2, hkr2] at hk2 hne hv2
  obtain ⟨hi1, ⟨ra, hra, hraid⟩, ⟨t1, ht1m, ht1b, ht1id⟩⟩ := mem_assignAllKeys.mp hk1
  obtain ⟨hi2, _, _⟩ := mem_assignAllKeys.mp hk2
  simp only [roomOk, List.all_eq_true] at hroom
  have hcon := hroom ra hra t1 ht1m
  rw [ht1b] at hcon
  simp only [Bool.false_or] at hcon
  rw [decide_eq_true_eq] at hcon
  have hm1 : (i1, r1, s1) ∈
      roomVarsFor A.length (assignAllKeys A.length rooms slots) ra t1 := by
    unfold roomVarsFor
    apply List.mem_filterMap.mpr
    refine ⟨i1, List.mem_range.mpr hi1, ?_⟩
    rw [hraid, ht1id, if_pos hk1]
  have hm2 : (i2, r1, s1) ∈
      roomVarsFor A.length (assignAllKeys A.length rooms slots) ra t1 := by
    unfold roomVarsFor
    apply List.mem_filterMap.mpr
    refine ⟨i2, List.mem_range.mpr hi2, ?_⟩
    rw [hraid, ht1id, if_pos hk2]
  have hfil1 := List.mem_filter.mpr ⟨hm1, hv1⟩
  have hfil2 := List.mem_filter.mpr ⟨hm2, hv2⟩
  have h2 := two_le_length_of_mem_ne hfil1 hfil2 hne
  omega

theorem foldl_insert_of_nodup {α : Type} [DecidableEq α] (l : List α) (acc : List α)
    (hd : ∀ a ∈ l, a ∉ acc) (hl : l.Nodup) :
    l.foldl (fun acc k => if k ∈ acc then acc else acc ++ [k]) acc = acc ++ l := by
  induction l generalizing acc with
  | nil => simp
  | cons x xs ih =>
    have hx : x ∉ acc := hd x (List.mem_cons_self ..)
    rw [List.foldl_cons]
    simp only [if_neg hx]
    rw [ih (acc ++ [x])]
    · simp
    · intro a ha
      rcases List.nodup_cons.mp hl with ⟨hxm, _⟩
      simp only [List.mem_append, List.mem_singleton]
      rintro (h | h)
      · exact hd a (List.mem_cons_of_mem _ ha) h
      · exact hxm (h ▸ ha)
    · exact (List.nodup_cons.mp hl).2

theorem firstOccs_eq_self {α : Type} [DecidableEq α] {l : List α} (h : l.Nodup) :
    firstOccs l = l := by
  unfold firstOccs
  rw [foldl_insert_of_nodup l [] (by simp) h]
  simp

theorem filterMap_eq_map_of_some {α β : Type} (l : List α) (f : α → Option β)
    (g : α → β) (h : ∀ x ∈ l, f x = some (g x)) : l.filterMap f = l.map g := by
  induction l with
  | nil => rfl
  | cons x xs ih =>
    rw [List.filterMap_cons, h x (List.mem_cons_self ..), List.map_cons,
      ih (fun y hy => h y (List.mem_cons_of_mem _ hy))]

theorem length_filterMap_eq_countP {α β : Type} (f : α → Option β) (l : List α) :
    (l.filterMap f).length = l.countP (fun a => (f a).isSome) := by
  induction l with
  | nil => rfl
  | cons x xs ih =>
    cases hf : f x <;>
      simp [List.filterMap_cons, hf, ih, List.countP_cons]

theorem nodup_map_of_nodup_map_proj {α : Type} {l : List α} {f : α → Nat}
    (h : (l.map f).Nodup) {β : Type} (g : Nat → β) (hg : Function.Injective g) :
    (l.map fun x => g (f x)).Nodup := by
  have : (l.map fun x => g (f x)) = (l.map f).map g := by
    rw [List.map_map]
    rfl
  rw [this]
  exact h.map hg

theorem nodup_assignVarKeys {n : Nat} {rooms : List Room} {slots : List TimeSlot}
    (hr : (rooms.map Room.id).Nodup) (hs : (slots.map TimeSlot.id).Nodup) :
    (assignVarKeys n rooms slots).Nodup := by
  have hsNB : ((slots.filter fun t => !t.is_break).map TimeSlot.id).Nodup :=
    ((List.filter_sublist slots).map TimeSlot.id).nodup hs
  unfold assignVarKeys
  rw [List.nodup_flatMap]
  constructor
  · intro idx _
    rw [List.nodup_flatMap]
    constructor
    · intro r _
      exact nodup_map_of_nodup_map_proj hsNB (fun i => (idx, r.id, i))
        (fun a b hab => by simpa using hab)
    · have hping : rooms.Pairwise fun a b => a.id ≠ b.id := by
        rw [← List.pairwise_map (f := Room.id)]
        exact hr
      refine hping.imp ?_
      intro a b hab
      intro x hxa hxb
      simp only [List.mem_map] at hxa hxb
      obtain ⟨t, _, rfl⟩ := hxa
      obtain ⟨t2, _, he⟩ := hxb
      simp only [Prod.mk.injEq] at he
      exact hab he.2.1.symm
  · have : (List.range n).Pairwise (· ≠ ·) := (List.nodup_range n)
    refine this.imp ?_
    intro a b hab
    intro x hxa hxb
    simp only [List.mem_flatMap, List.mem_map] at hxa hxb
    obtain ⟨r, _, t, _, rfl⟩ := hxa
    obtain ⟨r2, _, t2, _, he⟩ := hxb
    simp only [Prod.mk.injEq] at he
    exact hab he.1.symm

theorem covVarsFor_eq_of_mem (allKeys : List (Nat × Nat × Nat)) (rooms : List Room)
    (slots : List TimeSlot) (idx : Nat)
    (hmem : ∀ r ∈ rooms, ∀ t ∈ slots.filter (fun t => !t.is_break),
      (idx, r.id, t.id) ∈ allKeys) :
    covVarsFor allKeys rooms slots idx
      = rooms.flatMap fun r =>
          (slots.filter fun t => !t.is_break).map fun t => (idx, r.id, t.id) := by
  unfold covVarsFor
  induction rooms with
  | nil => rfl
  | cons r rs ih =>
    rw [List.flatMap_cons, List.flatMap_cons,
      ih (fun r' hr' => hmem r' (List.mem_cons_of_mem _ hr'))]
    congr 1
    exact filterMap_eq_map_of_some _ _ _
      (fun t ht => by rw [if_pos (hmem r (List.mem_cons_self ..) t ht)])

theorem covVarsFor_assignAllKeys (A : List Assignment) (rooms : List Room)
    (slots : List TimeSlot) (idx : Nat) (hidx : idx < A.length) :
    covVarsFor (assignAllKeys A.length rooms slots) rooms slots idx
      = rooms.flatMap fun r =>
          (slots.filter fun t => !t.is_break).map fun t => (idx, r.id, t.id) := by
  apply covVarsFor_eq_of_mem
  intro r hr t ht
  rcases List.mem_filter.mp ht with ⟨htm, htb⟩
  exact mem_assignAllKeys.mpr
    ⟨hidx, ⟨r, hr, rfl⟩, ⟨t, htm, by simpa using htb, rfl⟩⟩

theorem extractAssign_length (A : List Assignment) (rooms : List Room)
    (slots : List TimeSlot) (val : Nat × Nat × Nat → Bool)
    (hnr : (rooms.map Room.id).Nodup) (hns : (slots.map TimeSlot.id).Nodup)
    (hcov : covOk A rooms slots val = true) (hr : rooms ≠ [])
    (hs : (slots.filter fun t => !t.is_break) ≠ []) :
    (extractAssign A rooms slots val).length = A.length := by
  have hperIdx : ∀ idx < A.length,
      ((rooms.flatMap fun r =>
        (slots.filter fun t => !t.is_break).map fun t => (idx, r.id, t.id)).countP val)
        = 1 := by
    intro idx hidx
    simp only [covOk, List.all_eq_true] at hcov
    have h1 := hcov idx (List.mem_range.mpr hidx)
    rw [covVarsFor_assignAllKeys A rooms slots idx hidx] at h1
    have hne : (rooms.flatMap fun r =>
        (slots.filter fun t => !t.is_break).map fun t => (idx, r.id, t.id)) ≠ [] := by
      cases hrooms : rooms with
      | nil => exact absurd hrooms hr
      | cons r rs =>
        cases hslots : slots.filter fun t => !t.is_break with
        | nil => exact absurd hslots hs
        | cons t ts => simp [List.flatMap_cons, hslots]
    rw [Bool.or_eq_true] at h1
    rcases h1 with h1 | h1
    · exact absurd (List.isEmpty_iff.mp h1) hne
    · rw [decide_eq_true_eq] at h1
      rw [List.countP_eq_length_filter]
      exact h1
  have hkeys : assignAllKeys A.length rooms slots = assignVarKeys A.length rooms slots := by
    unfold assignAllKeys
    exact firstOccs_eq_self (nodup_assignVarKeys hnr hns)
  unfold extractAssign
  rw [length_filterMap_eq_countP, hkeys]
  have hpt : List.countP (fun k => (if val k = true then (A.get? k.1).map (fun a =>
      { id := 0, class_group_id := a.group_id, subject_id := a.subject_id,
        room_id := k.2.1, time_slot_id := k.2.2,
        teacher_id := a.teacher_id : Entry }) else none).isSome)
      (assignVarKeys A.length rooms slots)
      = List.countP val (assignVarKeys A.length rooms slots) := by
    apply List.countP_congr
    intro k hk
    rcases mem_assignVarKeys.mp hk with ⟨hlt, _, _⟩
    by_cases hv : val k
    · simp [hv, List.getElem?_eq_getElem hlt]
    · simp [hv]
  rw [hpt]
  unfold assignVarKeys
  rw [List.countP_flatMap]
  have : List.map (List.countP val ∘ fun idx =>
      rooms.flatMap fun r =>
        (slots.filter fun t => !t.is_break).map fun t => (idx, r.id, t.id))
      (List.range A.length) = List.map (fun _ => 1) (List.range A.length) := by
    apply List.map_congr_left
    intro idx hidx
    exact hperIdx idx (List.mem_range.mp hidx)
  rw [this]
  simp

/-! ## Claim C1 -/

/-- C1 (amended): for the assignment-based CSP path (a non-empty
required-assignment list, every assignment carrying a truthy teacher
id, as the lesson expansion produces), any schedule the solver can
return and that `generate_and_save` persists as an `active` version
has an empty `AnalyticsReporter` conflict list.  (The claim as stated
is false: with no lessons the solver silently falls back to the
cartesian model, whose decoder can emit colliding period-6 lab
copies - see the counterexample.) -/
theorem c1_assign_path_conflicts_empty (A : List Assignment) (groups : List ClassGrp)
    (subjects : List Subject) (rooms : List Room) (slots : List TimeSlot)
    (sched : List Entry) (v : Version)
    (hA : A ≠ [])
    (ht : ∀ a ∈ A, truthyId a.teacher_id = true)
    (hp : cspSolveProduces A groups subjects rooms slots sched)
    (hsave : generate_and_save (run_solver ("csp") (some sched)) = some v)
    (_hact : v.status = "active") :
    analyticsConflicts v.entries = [] := by
  have hrs : run_solver ("csp") (some sched) = Except.ok (some sched) := by
    unfold run_solver
    rw [if_neg (by decide)]
  rw [hrs] at hsave
  cases sched with
  | nil => simp [generate_and_save] at hsave
  | cons e es =>
    have hv : v = ⟨"active", true, none, e :: es⟩ := by
      simpa [generate_and_save] using hsave.symm
    unfold cspSolveProduces at hp
    rw [if_neg (fun h => hA (List.isEmpty_iff.mp h))] at hp
    obtain ⟨val, hsat, hext⟩ := hp
    simp only [satAssign, Bool.and_eq_true] at hsat
    obtain ⟨⟨⟨_hcov, _hgrp⟩, hroom⟩, hteach⟩ := hsat
    rw [hv]
    show analyticsConflicts (e :: es) = []
    rw [hext]
    unfold analyticsConflicts
    rw [extractAssign_teacher_overlap_nil A rooms slots val hteach ht,
      extractAssign_room_overlap_nil A rooms slots val hroom]
    rfl

/-- Witness catalog for C1: one assignment, one room, one slot. -/
def c1A : List Assignment :=
  [{ assignment_id := 0, group_id := 1, subject_id := 1, teacher_id := some 1,
     duration := 1, occurrence := 1 }]

/-- Witness room list for C1. -/
def c1Rooms : List Room := [{ id := 1, capacity := 40, type := "LectureHall" }]

/-- Witness slot list for C1. -/
def c1Slots : List TimeSlot := [{ id := 3, day := "Monday", period := 1, is_break := false }]

/-- Witness valuation for C1: only variable `(0, 1, 3)` is true. -/
def c1Val : Nat × Nat × Nat → Bool := fun k => k = (0, 1, 3)

/-- Witness schedule for C1. -/
def c1Sched : List Entry :=
  [{ id := 0, class_group_id := 1, subject_id := 1, room_id := 1, time_slot_id := 3,
     teacher_id := some 1 }]

/-- Witness version for C1. -/
def c1Version : Version :=
  { status := "active", is_valid := true, fitness_score := none, entries := c1Sched }

/-- C1 witness: the amended theorem applied to the concrete catalog. -/
theorem c1_assign_path_conflicts_empty_witness :
    c1A ≠ [] ∧ analyticsConflicts c1Version.entries = [] := by
  refine ⟨by decide, ?_⟩
  refine c1_assign_path_conflicts_empty c1A [] [] c1Rooms c1Slots c1Sched c1Version
    (by decide) (by decide) ?_ (by decide) rfl
  unfold cspSolveProduces
  rw [if_neg (by decide)]
  exact ⟨c1Val, by decide, by decide⟩

/-- Counterexample catalog: one group, two multi-slot lab subjects
sharing teacher 1, one lab room, Monday periods 5 and 6 (both
non-break), and an *empty* lesson catalog, so `solve()` takes the
cartesian fallback. -/
def c1xGroups : List ClassGrp := [{ id := 1, student_count := 30 }]

/-- Counterexample subjects for C1. -/
def c1xSubjects : List Subject :=
  [{ id := 1, name := "Lab A", is_lab := true, required_room_type := "Lab",
     duration_slots := 2, teacher_id := some 1 },
   { id := 2, name := "Lab B", is_lab := true, required_room_type := "Lab",
     duration_slots := 2, teacher_id := some 1 }]

/-- Counterexample rooms for C1. -/
def c1xRooms : List Room := [{ id := 1, capacity := 40, type := "Lab" }]

/-- Counterexample slots for C1. -/
def c1xSlots : List TimeSlot :=
  [{ id := 5, day := "Monday", period := 5, is_break := false },
   { id := 6, day := "Monday", period := 6, is_break := false }]

/-- Counterexample valuation: subject 1 at period 5, subject 2 at
period 6 (one of the two satisfying valuations; the other is
symmetric and conflicts the same way). -/
def c1xVal : Nat × Nat × Nat × Nat → Bool := fun k => k ∈ [(1, 1, 1, 5), (1, 2, 1, 6)]

/-- The decoded schedule: the period-5 lab is duplicated into period 6,
which subject 2 also occupies with the same teacher and room. -/
def c1xSched : List Entry :=
  [{ id := 0, class_group_id := 1, subject_id := 1, room_id := 1, time_slot_id := 5,
     teacher_id := some 1 },
   { id := 0, class_group_id := 1, subject_id := 1, room_id := 1, time_slot_id := 6,
     teacher_id := some 1 },
   { id := 0, class_group_id := 1, subject_id := 2, room_id := 1, time_slot_id := 6,
     teacher_id := some 1 }]

/-- Counterexample version for C1. -/
def c1xVersion : Version :=
  { status := "active", is_valid := true, fitness_score := none, entries := c1xSched }

/-- C1 counterexample: with an empty lesson catalog the CSP back-end
can return `c1xSched`; `generate_and_save` persists it as an `active`
version whose analytics conflict list is non-empty (teacher 1 and
room 1 are both double-booked at slot 6). -/
theorem c1_cartesian_active_with_conflicts :
    cspSolveProduces [] c1xGroups c1xSubjects c1xRooms c1xSlots c1xSched ∧
      generate_and_save (run_solver ("csp") (some c1xSched)) = some c1xVersion ∧
      c1xVersion.status = "active" ∧
      analyticsConflicts c1xVersion.entries ≠ [] := by
  refine ⟨?_, by decide, rfl, by decide⟩
  show cspCartProduces c1xGroups c1xSubjects c1xRooms c1xSlots c1xSched
  exact ⟨c1xVal, by decide, by decide⟩

/-! ## Claim C2 -/

/-- C2 (amended): the assignment-based CSP path imposes no lab
continuity at all - there are no block-start variables - and any
schedule it can return has exactly one entry per required assignment,
whatever the assignment's duration or its subject's `duration_slots`.
(Only the cartesian fallback touches labs, by duplicating a period-5
choice into period 6.)  The Nodup hypotheses are the database's
primary-key uniqueness; non-emptiness of rooms and non-break slots
keeps every assignment placeable. -/
theorem c2_assign_exactly_one_entry (A : List Assignment) (groups : List ClassGrp)
    (subjects : List Subject) (rooms : List Room) (slots : List TimeSlot)
    (sched : List Entry)
    (hA : A ≠ [])
    (hnr : (rooms.map Room.id).Nodup) (hns : (slots.map TimeSlot.id).Nodup)
    (hr : rooms ≠ []) (hs : (slots.filter fun t => !t.is_break) ≠ [])
    (hp : cspSolveProduces A groups subjects rooms slots sched) :
    sched.length = A.length := by
  unfold cspSolveProduces at hp
  rw [if_neg (fun h => hA (List.isEmpty_iff.mp h))] at hp
  obtain ⟨val, hsat, hext⟩ := hp
  simp only [satAssign, Bool.and_eq_true] at hsat
  obtain ⟨⟨⟨hcov, _⟩, _⟩, _⟩ := hsat
  rw [hext]
  exact extractAssign_length A rooms slots val hnr hns hcov hr hs

/-- Counterexample data for C2: one multi-slot lab assignment. -/
def c2A : List Assignment :=
  [{ assignment_id := 0, group_id := 1, subject_id := 1, teacher_id := some 1,
     duration := 2, occurrence := 1 }]

/-- The lab subject of the C2 counterexample. -/
def c2Subject : Subject :=
  { id := 1, name := "Physics Lab", is_lab := true, required_room_type := "Lab",
    duration_slots := 2, teacher_id := some 1 }

/-- Counterexample rooms for C2. -/
def c2Rooms : List Room := [{ id := 1, capacity := 40, type := "Lab" }]

/-- Counterexample slots for C2: two consecutive non-break Monday
periods, so a two-slot block would be available. -/
def c2Slots : List TimeSlot :=
  [{ id := 1, day := "Monday", period := 1, is_break := false },
   { id := 2, day := "Monday", period := 2, is_break := false }]

/-- Counterexample valuation for C2: the lab is placed at period 1
only. -/
def c2Val : Nat × Nat × Nat → Bool := fun k => k = (0, 1, 1)

/-- Counterexample schedule for C2: a single entry. -/
def c2Sched : List Entry :=
  [{ id := 0, class_group_id := 1, subject_id := 1, room_id := 1, time_slot_id := 1,
     teacher_id := some 1 }]

/-- C2 counterexample: the solver can return a single-entry schedule
for a duration-2 lab assignment (`is_lab`, `duration_slots = 2`),
although the claim requires exactly 2 entries in consecutive
periods. -/
theorem c2_lab_single_entry_counterexample :
    c2Subject.is_lab = true ∧ c2Subject.duration_slots = 2 ∧
      c2A.map Assignment.subject_id = [c2Subject.id] ∧
      cspSolveProduces c2A [{ id := 1, student_count := 30 }] [c2Subject] c2Rooms
        c2Slots c2Sched ∧
      c2Sched.length = 1 := by
  refine ⟨rfl, rfl, rfl, ?_, rfl⟩
  show cspAssignProduces c2A c2Rooms c2Slots c2Sched
  exact ⟨c2Val, by decide, by decide⟩

/-- C2 witness: the amended theorem applied to the counterexample
catalog - the single lab assignment yields exactly one entry. -/
theorem c2_assign_exactly_one_entry_witness :
    c2A ≠ [] ∧ c2Sched.length = c2A.length := by
  refine ⟨by decide, ?_⟩
  refine c2_assign_exactly_one_entry c2A [{ id := 1, student_count := 30 }] [c2Subject]
    c2Rooms c2Slots c2Sched (by decide) (by decide) (by decide) (by decide) (by decide) ?_
  show cspAssignProduces c2A c2Rooms c2Slots c2Sched
  exact ⟨c2Val, by decide, by decide⟩

/-! ## Claim C4 -/

/-- C4 (amended): for every individual the GA fitness equals
max(0, 10000 - 1000·h - total_soft), where h counts exactly the
TeacherOverlap, RoomOverlap and RoomCapacity conflicts; the
specification's GroupOverlap conflicts are not part of h. -/
theorem c4_fitness_formula (sqrtFn : ℚ → ℚ) (teachers : List Teacher)
    (groups : List ClassGrp) (rooms : List Room) (slots : List TimeSlot)
    (individual : List Entry) :
    ga_fitness sqrtFn teachers groups rooms slots individual =
      max 0 (10000 - 1000 * ((check_teacher_overlap individual).length
          + (check_room_overlap individual).length
          + (check_room_capacity individual groups rooms).length : ℚ)
        - total_soft_score sqrtFn individual teachers
            (slots.filter fun t => !t.is_break)) := by
  unfold ga_fitness
  simp only [List.length_append]
  congr 1
  push_cast
  ring

/-- Stand-in for the float square root in the concrete evaluations
below: every concrete schedule used has workload variance 0, and any
square-root model sends 0 to 0, as this function does. -/
def sqrtStub : ℚ → ℚ := fun q => q

/-- C4 counterexample individual: group 1 has two different subjects
with different teachers and different rooms at the same slot - a
GroupOverlap conflict and nothing else. -/
def c4Ind : List Entry :=
  [{ id := 0, class_group_id := 1, subject_id := 1, room_id := 1, time_slot_id := 1,
     teacher_id := some 1 },
   { id := 0, class_group_id := 1, subject_id := 2, room_id := 2, time_slot_id := 1,
     teacher_id := some 2 }]

/-- Teachers of the C4 counterexample. -/
def c4Teachers : List Teacher :=
  [{ id := 1, max_hours_per_week := some 12 }, { id := 2, max_hours_per_week := some 12 }]

/-- Groups of the C4 counterexample. -/
def c4Groups : List ClassGrp := [{ id := 1, student_count := 30 }]

/-- Rooms of the C4 counterexample. -/
def c4Rooms : List Room :=
  [{ id := 1, capacity := 40, type := "LectureHall" },
   { id := 2, capacity := 40, type := "LectureHall" }]

/-- Slots of the C4 counterexample. -/
def c4Slots : List TimeSlot := [{ id := 1, day := "Monday", period := 1, is_break := false }]

/-- C4 counterexample: the individual has a GroupOverlap conflict, yet
its fitness is the full 10000; the claimed formula (which charges 1000
per GroupOverlap conflict as well) gives 9000. -/
theorem c4_group_overlap_not_counted :
    check_group_overlap c4Ind ≠ [] ∧
      ga_fitness sqrtStub c4Teachers c4Groups c4Rooms c4Slots c4Ind = 10000 ∧
      claimedFitness sqrtStub c4Teachers c4Groups c4Rooms c4Slots c4Ind = 9000 := by
  have h1 : check_teacher_overlap c4Ind = [] := by decide
  have h2 : check_room_overlap c4Ind = [] := by decide
  have h3 : check_room_capacity c4Ind c4Groups c4Rooms = [] := by decide
  have h4 : (check_group_overlap c4Ind).length = 1 := by decide
  have h5 : total_soft_score sqrtStub c4Ind c4Teachers
      (c4Slots.filter fun t => !t.is_break) = 0 := by
    simp [total_soft_score, calculate_gaps, balance_workload,
      consecutive_classes_penalty, softKey, truthyId, firstOccs, gapsForPeriods,
      maxConsecutiveRun, sqrtStub, c4Ind, c4Teachers, c4Slots]
  refine ⟨by decide, ?_, ?_⟩
  · unfold ga_fitness
    rw [h1, h2, h3]
    norm_num [h5]
  · unfold claimedFitness
    rw [h1, h2, h3]
    norm_num [h5, h4]

/-! ## Claim C6 -/

/-- C6 (amended): on solver success both entry points mark the version
`active` and valid but `fitness_score` is never assigned (it keeps its
NULL default); `generate_in_background` marks `failed` when the solver
reports no solution and `error` on a raised exception, while
`generate_and_save` raises HTTP 409 on no solution - no version row
exists then, so nothing is marked `failed`. -/
theorem c6_status_transitions (es : List Entry) (msg : String) (h : es ≠ []) :
    generate_and_save (Except.ok (some es)) = some ⟨"active", true, none, es⟩ ∧
      generate_in_background (Except.ok (some es)) = ⟨"active", true, none, es⟩ ∧
      generate_in_background (Except.ok none) = ⟨"failed", false, none, []⟩ ∧
      generate_in_background (Except.error msg) = ⟨"error", true, none, []⟩ ∧
      generate_and_save (Except.ok none) = none := by
  cases es with
  | nil => exact absurd rfl h
  | cons e es' => exact ⟨rfl, rfl, rfl, rfl, rfl⟩

/-- Entry used by the C6 concrete statements. -/
def c6Entry : Entry :=
  { id := 0, class_group_id := 1, subject_id := 1, room_id := 1, time_slot_id := 1,
    teacher_id := some 1 }

/-- Teacher list used by the C6 counterexample. -/
def c6Teachers : List Teacher := [{ id := 1, max_hours_per_week := some 12 }]

/-- Slot list used by the C6 counterexample. -/
def c6Slots : List TimeSlot := [{ id := 1, day := "Monday", period := 1, is_break := false }]

/-- C6 witness: the amended theorem at a one-entry schedule. -/
theorem c6_status_transitions_witness :
    ([c6Entry] ≠ []) ∧
      generate_and_save (Except.ok (some [c6Entry])) =
        some ⟨"active", true, none, [c6Entry]⟩ :=
  ⟨by decide, (c6_status_transitions [c6Entry] ("boom") (by decide)).1⟩

/-- C6 counterexample: a successful generation leaves `fitness_score`
NULL although the schedule's total soft penalty here is 0, so the
claim requires `fitness_score = some (-0)`. -/
theorem c6_fitness_score_never_set :
    (∃ v, generate_and_save (Except.ok (some [c6Entry])) = some v ∧
        v.fitness_score = none) ∧
      total_soft_score sqrtStub [c6Entry] c6Teachers
        (c6Slots.filter fun t => !t.is_break) = 0 ∧
      (none : Option ℚ) ≠ some (-(0 : ℚ)) := by
  refine ⟨⟨_, rfl, rfl⟩, ?_, by simp⟩
  simp [total_soft_score, calculate_gaps, balance_workload,
    consecutive_classes_penalty, softKey, truthyId, firstOccs, gapsForPeriods,
    maxConsecutiveRun, sqrtStub, c6Entry, c6Teachers, c6Slots]

/-! ## Claim C7 -/

theorem buildIndividual_length (pickSlot pickRoom : Nat → Nat) (rooms : List Room)
    (slotsNB : List TimeSlot) (pairs : List (ClassGrp × Subject)) (k : Nat) :
    (buildIndividual pickSlot pickRoom rooms slotsNB k pairs).length = pairs.length := by
  induction pairs generalizing k with
  | nil => rfl
  | cons p rest ih =>
    obtain ⟨g, s⟩ := p
    simp [buildIndividual, ih]

theorem buildIndividual_mem (pickSlot pickRoom : Nat → Nat) (rooms : List Room)
    (slotsNB : List TimeSlot) (pairs : List (ClassGrp × Subject)) (k : Nat)
    (e : Entry) (he : e ∈ buildIndividual pickSlot pickRoom rooms slotsNB k pairs) :
    ∃ p ∈ pairs, e.class_group_id = p.1.id ∧ e.subject_id = p.2.id ∧
      e.teacher_id = p.2.teacher_id := by
  induction pairs generalizing k with
  | nil => simp [buildIndividual] at he
  | cons p rest ih =>
    obtain ⟨g, s⟩ := p
    rw [buildIndividual] at he
    rcases List.mem_cons.mp he with he | he
    · subst he
      exact ⟨(g, s), List.mem_cons_self .., rfl, rfl, rfl⟩
    · obtain ⟨p, hp, hfields⟩ := ih (k + 1) he
      exact ⟨p, List.mem_cons_of_mem _ hp, hfields⟩

/-- C7 (amended): every individual the GA builds has exactly one gene
per `(group, subject)` pair of the catalog - `groups.length *
subjects.length` genes in all - and each gene's teacher comes from
`subject.teacher_id`; the expanded `RequiredAssignment` list plays no
part (the service passes it into the constructor's `pop_size` slot).
The non-emptiness hypotheses reflect that `random.choice` and
`rooms[0]` raise on empty pools. -/
theorem c7_genome_shape (groups : List ClassGrp) (subjects : List Subject)
    (rooms : List Room) (slots : List TimeSlot) (pickSlot pickRoom : Nat → Nat)
    (_hr : rooms ≠ []) (_hs : (slots.filter fun t => !t.is_break) ≠ []) :
    (generate_random_individual groups subjects rooms slots pickSlot pickRoom).length
        = groups.length * subjects.length ∧
      ∀ e ∈ generate_random_individual groups subjects rooms slots pickSlot pickRoom,
        ∃ g ∈ groups, ∃ s ∈ subjects,
          e.class_group_id = g.id ∧ e.subject_id = s.id ∧
            e.teacher_id = s.teacher_id := by
  constructor
  · unfold generate_random_individual
    rw [buildIndividual_length]
    rw [List.length_flatMap]
    have : List.map (List.length ∘ fun g => subjects.map fun s => (g, s)) groups
        = List.map (fun _ => subjects.length) groups := by
      apply List.map_congr_left
      intro g _
      simp
    rw [this, List.map_const', List.sum_replicate, smul_eq_mul]
  · intro e he
    unfold generate_random_individual at he
    obtain ⟨p, hp, h1, h2, h3⟩ := buildIndividual_mem _ _ _ _ _ _ _ he
    simp only [List.mem_flatMap, List.mem_map] at hp
    obtain ⟨g, hg, s, hs2, rfl⟩ := hp
    exact ⟨g, hg, s, hs2, h1, h2, h3⟩

/-- C7 counterexample data: one group, two subjects, one lesson
expanding to three required assignments. -/
def c7Groups : List ClassGrp := [{ id := 1, student_count := 30 }]

/-- Subjects of the C7 counterexample. -/
def c7Subjects : List Subject :=
  [{ id := 1, name := "Math", is_lab := false, required_room_type := "LectureHall",
     duration_slots := 1, teacher_id := some 1 },
   { id := 2, name := "Science", is_lab := false, required_room_type := "LectureHall",
     duration_slots := 1, teacher_id := some 1 }]

/-- Rooms of the C7 counterexample. -/
def c7Rooms : List Room := [{ id := 1, capacity := 40, type := "LectureHall" }]

/-- Slots of the C7 counterexample. -/
def c7Slots : List TimeSlot := [{ id := 1, day := "Monday", period := 1, is_break := false }]

/-- Lesson of the C7 counterexample: it expands into three required
assignments. -/
def c7Lesson : Lesson :=
  { teacher_ids := [1], subject_ids := [1], group_ids := [1], lessons_per_week := 3,
    length_per_lesson := 1 }

/-- C7 counterexample: the lesson catalog expands to 3 required
assignments, yet every GA individual over this catalog has 2 genes
(one per (group, subject) pair) - not one gene per required
assignment. -/
theorem c7_genome_not_per_assignment :
    (expandLessons [c7Lesson]).length = 3 ∧
      (generate_random_individual c7Groups c7Subjects c7Rooms c7Slots
        (fun _ => 0) (fun _ => 0)).length = 2 ∧
      (2 : Nat) ≠ 3 :=
  ⟨by decide, by decide, by decide⟩

/-- C7 witness: the amended theorem at the counterexample catalog. -/
theorem c7_genome_shape_witness :
    c7Rooms ≠ [] ∧
      (generate_random_individual c7Groups c7Subjects c7Rooms c7Slots
        (fun _ => 0) (fun _ => 0)).length = c7Groups.length * c7Subjects.length :=
  ⟨by decide, (c7_genome_shape c7Groups c7Subjects c7Rooms c7Slots (fun _ => 0)
    (fun _ => 0) (by decide) (by decide)).1⟩

/-! ## Claim C9 -/

/-- C9 (amended): when the lesson catalog is empty, lesson expansion
yields an empty required-assignment sequence and the pipeline does
*not* fail - no EmptyRequirement error exists anywhere.  `solve()`
silently falls back to the cartesian model over the whole
groups×subjects catalog, and a non-empty fallback schedule is
persisted as an `active` version. -/
theorem c9_cartesian_fallback_active (lessons : List Lesson) (groups : List ClassGrp)
    (subjects : List Subject) (rooms : List Room) (slots : List TimeSlot)
    (sched : List Entry)
    (hl : lessons = [])
    (hp : cspSolveProduces (expandLessons lessons) groups subjects rooms slots sched)
    (hne : sched ≠ []) :
    cspCartProduces groups subjects rooms slots sched ∧
      ∃ v, generate_and_save (run_solver ("csp") (some sched)) = some v ∧
        v.status = "active" ∧ v.entries = sched := by
  subst hl
  constructor
  · exact hp
  · cases sched with
    | nil => exact absurd rfl hne
    | cons e es =>
      refine ⟨⟨"active", true, none, e :: es⟩, ?_, rfl, rfl⟩
      have hrs : run_solver ("csp") (some (e :: es)) = Except.ok (some (e :: es)) := by
        unfold run_solver
        rw [if_neg (by decide)]
      rw [hrs]
      rfl

/-- Groups of the C9 counterexample. -/
def c9Groups : List ClassGrp := [{ id := 1, student_count := 30 }]

/-- Subjects of the C9 counterexample. -/
def c9Subjects : List Subject :=
  [{ id := 1, name := "Math", is_lab := false, required_room_type := "LectureHall",
     duration_slots := 1, teacher_id := some 1 }]

/-- Rooms of the C9 counterexample. -/
def c9Rooms : List Room := [{ id := 1, capacity := 40, type := "LectureHall" }]

/-- Slots of the C9 counterexample. -/
def c9Slots : List TimeSlot := [{ id := 1, day := "Monday", period := 1, is_break := false }]

/-- Valuation of the C9 counterexample: the only (group, subject) pair
is placed at the only slot. -/
def c9Val : Nat × Nat × Nat × Nat → Bool := fun k => k = (1, 1, 1, 1)

/-- Fallback schedule of the C9 counterexample. -/
def c9Sched : List Entry :=
  [{ id := 0, class_group_id := 1, subject_id := 1, room_id := 1, time_slot_id := 1,
     teacher_id := some 1 }]

/-- Version of the C9 counterexample. -/
def c9Version : Version :=
  { status := "active", is_valid := true, fitness_score := none, entries := c9Sched }

/-- C9 counterexample: with no lessons at all the CSP back-end can
return a (cartesian-fallback) schedule and `generate_and_save`
persists it as an active version - instead of reporting any
EmptyRequirement error. -/
theorem c9_empty_lessons_still_generates :
    expandLessons [] = [] ∧
      cspSolveProduces (expandLessons []) c9Groups c9Subjects c9Rooms c9Slots c9Sched ∧
      generate_and_save (run_solver ("csp") (some c9Sched)) = some c9Version ∧
      c9Version.status = "active" ∧ c9Version.entries ≠ [] := by
  refine ⟨rfl, ?_, by decide, rfl, by decide⟩
  show cspCartProduces c9Groups c9Subjects c9Rooms c9Slots c9Sched
  exact ⟨c9Val, by decide, by decide⟩

/-- C9 witness: the amended theorem at the counterexample data. -/
theorem c9_cartesian_fallback_active_witness :
    (([] : List Lesson) = []) ∧ cspCartProduces c9Groups c9Subjects c9Rooms c9Slots c9Sched := by
  refine ⟨rfl, ?_⟩
  refine (c9_cartesian_fallback_active [] c9Groups c9Subjects c9Rooms c9Slots c9Sched
    rfl ?_ (by decide)).1
  show cspCartProduces c9Groups c9Subjects c9Rooms c9Slots c9Sched
  exact ⟨c9Val, by decide, by decide⟩

/-! ## Claim C10 -/

/-- C10: in the analytics report, a teacher's utilization is
assigned/max_hours·100 guarded by the Python truthiness of
`max_hours_per_week` - a NULL or zero value yields 0 without error -
and a room's utilization is guarded the same way by the count of
non-break slots. -/
theorem c10_utilization_guarded (teachers : List Teacher) (rooms : List Room)
    (slots : List TimeSlot) (entries : List Entry) (t : Teacher) (r : Room)
    (ht : t ∈ teachers) (hr : r ∈ rooms) :
    (∃ st ∈ teacher_stats teachers entries, st.id = t.id ∧
        st.utilization_percentage =
          (match t.max_hours_per_week with
           | some m =>
             if m = 0 then 0
             else ((entries.filter fun e => e.teacher_id == some t.id).length : ℚ)
               / m * 100
           | none => 0)) ∧
      ∃ st ∈ room_stats rooms slots entries, st.id = r.id ∧
        st.utilization_percentage =
          (if (slots.filter fun t2 => !t2.is_break).length = 0 then 0
           else ((entries.filter fun e => e.room_id == r.id).length : ℚ)
             / (slots.filter fun t2 => !t2.is_break).length * 100) := by
  constructor
  · exact ⟨_, List.mem_map.mpr ⟨t, ht, rfl⟩, rfl, rfl⟩
  · exact ⟨_, List.mem_map.mpr ⟨r, hr, rfl⟩, rfl, rfl⟩

/-- Teachers of the C10 witness: one with zero hours, one with NULL
hours. -/
def c10Teachers : List Teacher :=
  [{ id := 1, max_hours_per_week := some 0 }, { id := 2, max_hours_per_week := none }]

/-- Rooms of the C10 witness. -/
def c10Rooms : List Room := [{ id := 7, capacity := 40, type := "LectureHall" }]

/-- Slots of the C10 witness: only a break slot, so the non-break count
is 0. -/
def c10Slots : List TimeSlot := [{ id := 1, day := "Monday", period := 1, is_break := true }]

/-- Entries of the C10 witness: teacher 1 and room 7 do appear. -/
def c10Entries : List Entry :=
  [{ id := 0, class_group_id := 1, subject_id := 1, room_id := 7, time_slot_id := 1,
     teacher_id := some 1 }]

/-- C10 witness: utilization is 0 (not a fault) for a zero-hour
teacher, a NULL-hour teacher and a room with no non-break slots. -/
theorem c10_utilization_guarded_witness :
    (∃ st ∈ teacher_stats c10Teachers c10Entries, st.id = 1 ∧
        st.utilization_percentage = 0) ∧
      (∃ st ∈ teacher_stats c10Teachers c10Entries, st.id = 2 ∧
        st.utilization_percentage = 0) ∧
      ∃ st ∈ room_stats c10Rooms c10Slots c10Entries, st.id = 7 ∧
        st.utilization_percentage = 0 := by
  refine ⟨?_, ?_, ?_⟩
  · exact (c10_utilization_guarded c10Teachers c10Rooms c10Slots c10Entries
      { id := 1, max_hours_per_week := some 0 } { id := 7, capacity := 40, type := "LectureHall" }
      (by decide) (by decide)).1
  · exact (c10_utilization_guarded c10Teachers c10Rooms c10Slots c10Entries
      { id := 2, max_hours_per_week := none } { id := 7, capacity := 40, type := "LectureHall" }
      (by decide) (by decide)).1
  · exact (c10_utilization_guarded c10Teachers c10Rooms c10Slots c10Entries
      { id := 1, max_hours_per_week := some 0 } { id := 7, capacity := 40, type := "LectureHall" }
      (by decide) (by decide)).2

/-! ## Claim C8 -/

/-- Database of the C8 failing input: teacher 2 exists, is entirely
free, but has `max_hours_per_week = 0`. -/
def c8Db : Db :=
  { teachers := [{ id := 2, max_hours_per_week := some 0 }], subjects := [], entries := [] }

/-- C8: the workload computation is *not* total - the only guard in
`_calculate_workload_score` covers a missing teacher row, so a
candidate whose `max_hours_per_week` is 0 makes
`utilization = (current_classes / max_hours) * 100` raise
`ZeroDivisionError` (modelled as `none`) instead of returning
`max(0, 50·(1-u))` as the claim states. -/
theorem c8_workload_zero_divisor_fault :
    (c8Db.teachers.find? fun t => t.id = 2)
        = some { id := 2, max_hours_per_week := some 0 } ∧
      calculate_workload_score c8Db 2 18 = none :=
  ⟨by decide, by decide⟩

/-! ## Claim C5 -/

/-- C5 (amended): for an existing candidate, a conflict in any required
slot short-circuits `score_substitute` to `score = 0, available =
false` with the list of conflicting slots, before any subject or
workload contribution; otherwise - *provided the workload computation
does not fault* (the candidate's `max_hours_per_week` is neither 0 nor
NULL, see C8) - the returned total is exactly 100 + subject score +
workload score. -/
theorem c5_score_substitute_spec (db : Db) (candidateId : Nat)
    (requiredTimeSlots : List Nat) (requiredSubjects : List String)
    (maxHoursThreshold : Nat) (cand : Teacher)
    (hc : db.teachers.find? (fun t => t.id = candidateId) = some cand) :
    ((∃ e ∈ db.entries, e.teacher_id = some candidateId ∧
        e.time_slot_id ∈ requiredTimeSlots) →
      score_substitute db candidateId requiredTimeSlots requiredSubjects
          maxHoursThreshold
        = some { teacher_id := candidateId, score := 0, available := false,
                 conflicting_slots := (db.entries.filter fun e =>
                   e.teacher_id == some candidateId
                     && e.time_slot_id ∈ requiredTimeSlots).map Entry.time_slot_id }) ∧
      ∀ w, (¬ ∃ e ∈ db.entries, e.teacher_id = some candidateId ∧
          e.time_slot_id ∈ requiredTimeSlots) →
        calculate_workload_score db candidateId maxHoursThreshold = some w →
        score_substitute db candidateId requiredTimeSlots requiredSubjects
            maxHoursThreshold
          = some { teacher_id := candidateId,
                   score := 100 + calculate_subject_expertise_score db candidateId
                     requiredSubjects + w,
                   available := true, conflicting_slots := [] } := by
  constructor
  · rintro ⟨e, he, h1, h2⟩
    have hne : (db.entries.filter fun e => e.teacher_id == some candidateId
        && e.time_slot_id ∈ requiredTimeSlots) ≠ [] := by
      intro h0
      have := List.filter_eq_nil_iff.mp h0 e he
      simp [h1, h2] at this
    have hisempty : ((db.entries.filter fun e => e.teacher_id == some candidateId
        && e.time_slot_id ∈ requiredTimeSlots).map Entry.time_slot_id).isEmpty
          = false := by
      simp only [List.isEmpty_eq_false, ne_eq, List.map_eq_nil_iff]
      exact hne
    simp only [score_substitute, hc, check_availability, hisempty, Bool.not_false,
      if_true]
  · intro w hfree hw
    have hnil : (db.entries.filter fun e => e.teacher_id == some candidateId
        && e.time_slot_id ∈ requiredTimeSlots) = [] := by
      rw [List.filter_eq_nil_iff]
      intro e he hp
      simp only [Bool.and_eq_true, beq_iff_eq, decide_eq_true_eq] at hp
      exact hfree ⟨e, he, hp.1, hp.2⟩
    simp only [score_substitute, hc, check_availability, hnil, List.map_nil,
      List.isEmpty_nil, Bool.not_true, if_false, hw]
    simp

/-- Database of the C5 witness: candidate 2 (12 weekly hours) teaches
Math and has exactly one scheduled entry, at slot 5. -/
def c5Db : Db :=
  { teachers := [{ id := 2, max_hours_per_week := some 12 }],
    subjects := [{ id := 1, name := "Math", is_lab := false,
                   required_room_type := "LectureHall", duration_slots := 1,
                   teacher_id := some 2 }],
    entries := [{ id := 9, class_group_id := 1, subject_id := 1, room_id := 1,
                  time_slot_id := 5, teacher_id := some 2 }] }

/-- C5 witness: for slot set {5} the candidate is busy and the call
short-circuits to score 0 / unavailable with the conflicting slot;
for slot set {7} it is free and the total is 100 + subject score +
workload score (= 275/6 at load 1 of 12). -/
theorem c5_score_substitute_spec_witness :
    score_substitute c5Db 2 [5] ["Math"] 18
        = some { teacher_id := 2, score := 0, available := false,
                 conflicting_slots := [5] } ∧
      score_substitute c5Db 2 [7] ["Math"] 18
        = some { teacher_id := 2,
                 score := 100 + calculate_subject_expertise_score c5Db 2 ["Math"]
                   + 275 / 6,
                 available := true, conflicting_slots := [] } := by
  constructor
  · exact (c5_score_substitute_spec c5Db 2 [5] ["Math"] 18
        { id := 2, max_hours_per_week := some 12 } (by decide)).1
      ⟨{ id := 9, class_group_id := 1, subject_id := 1, room_id := 1,
         time_slot_id := 5, teacher_id := some 2 }, by decide, rfl, by decide⟩
  · refine (c5_score_substitute_spec c5Db 2 [7] ["Math"] 18
        { id := 2, max_hours_per_week := some 12 } (by decide)).2 (275 / 6) ?_ ?_
    · rintro ⟨e, he, h1, h2⟩
      simp only [c5Db, List.mem_singleton] at he
      subst he
      simp at h2
    · norm_num [calculate_workload_score, c5Db]

/-- Database of the C5 counterexample: the only other teacher exists,
is entirely free, but has `max_hours_per_week = 0`. -/
def c5xDb : Db :=
  { teachers := [{ id := 3, max_hours_per_week := some 0 }], subjects := [],
    entries := [] }

/-- C5 counterexample: an existing, non-busy candidate for which the
call returns no score record at all (the workload division faults),
although the claim promises the total 100 + subject + workload. -/
theorem c5_zero_max_hours_faults :
    ((c5xDb.teachers.find? fun t => t.id = 3).isSome = true) ∧
      (¬∃ e ∈ c5xDb.entries, e.teacher_id = some 3 ∧ e.time_slot_id ∈ [1]) ∧
      score_substitute c5xDb 3 [1] ["Math"] 18 = none := by
  refine ⟨by decide, ?_, by decide⟩
  rintro ⟨e, he, -⟩
  simp [c5xDb] at he

/-! ## Claim C3 -/

theorem auto_assign_cases (db : Db) (subs0 : List Substitution) (teacherId : Nat)
    (date : String) (res : List Substitution × Bool) (cand : Teacher)
    (hcand : db.teachers.find? (fun t => t.id = teacherId) = some cand)
    (hne : affectedEntries db teacherId ≠ [])
    (hres : auto_assign_substitutes db subs0 teacherId date = some res) :
    (∃ cid, res = (subs0 ++ (affectedEntries db teacherId).map fun e =>
        { date := date, timetable_entry_id := e.id, original_teacher_id := teacherId,
          substitute_teacher_id := some cid, status := "confirmed" }, true)) ∨
      res = (subs0 ++ (affectedEntries db teacherId).map fun e =>
        { date := date, timetable_entry_id := e.id, original_teacher_id := teacherId,
          substitute_teacher_id := none, status := "cancelled" }, false) := by
  unfold auto_assign_substitutes at hres
  rw [hcand] at hres
  simp only at hres
  rw [if_neg (fun h => hne (List.isEmpty_iff.mp h))] at hres
  cases hscore : scoreAvailable db ((affectedEntries db teacherId).map Entry.time_slot_id)
      ((db.subjects.filter fun s =>
        s.id ∈ firstOccs ((affectedEntries db teacherId).map Entry.subject_id)).map
          Subject.name)
      (db.teachers.filter fun t => t.id ≠ teacherId) with
  | none =>
    rw [hscore] at hres
    exact absurd hres (by simp)
  | some scored =>
    rw [hscore] at hres
    have hres2 : (match sortByScoreDesc scored with
        | best :: _ =>
          some (subs0 ++ (affectedEntries db teacherId).map fun e =>
            { date := date, timetable_entry_id := e.id, original_teacher_id := teacherId,
              substitute_teacher_id := some best.teacher_id, status := "confirmed" },
            true)
        | [] =>
          some (subs0 ++ (affectedEntries db teacherId).map fun e =>
            { date := date, timetable_entry_id := e.id, original_teacher_id := teacherId,
              substitute_teacher_id := none, status := "cancelled" },
            false)) = some res := hres
    cases hsort : sortByScoreDesc scored with
    | nil =>
      rw [hsort] at hres2
      right
      exact (Option.some.inj hres2).symm
    | cons best rest =>
      rw [hsort] at hres2
      left
      exact ⟨best.teacher_id, (Option.some.inj hres2).symm⟩

theorem count_one_per_entry (es : List Entry) (hnd : (es.map Entry.id).Nodup)
    (f : Entry → Substitution) (date : String)
    (hf : ∀ e, (f e).timetable_entry_id = e.id ∧ (f e).date = date)
    (e : Entry) (he : e ∈ es) :
    ((es.map f).filter fun s =>
      s.date == date && s.timetable_entry_id == e.id).length = 1 := by
  rw [← List.countP_eq_length_filter, List.countP_map]
  have h1 : ((fun s : Substitution => s.date == date && s.timetable_entry_id == e.id)
      ∘ f) = fun e' => e'.id == e.id := by
    funext e'
    simp [Function.comp, (hf e').1, (hf e').2]
  rw [h1]
  have h2 : List.countP (fun e' => e'.id == e.id) es
      = (es.map Entry.id).count e.id := by
    rw [List.count, List.countP_map]
    rfl
  rw [h2]
  exact List.count_eq_one_of_mem hnd (List.mem_map.mpr ⟨e, he, rfl⟩)

/-- C3: a completed `auto_assign` call on a version where the absent
teacher has at least one entry (and no substitution row yet exists for
the date and those entries) leaves exactly one Substitution row per
(date, affected entry), all with the absent teacher as original; and
either every created row carries the same non-null substitute with
status `confirmed`, or every created row carries a null substitute
with status `cancelled`.  The whole set is the result of the single
commit - a scoring fault returns `none` and commits nothing, so the
outcome is all-or-none. -/
theorem c3_auto_assign_terminal (db : Db) (subs0 : List Substitution)
    (teacherId : Nat) (date : String) (subsAfter : List Substitution) (ok : Bool)
    (hfind : (db.teachers.find? fun t => t.id = teacherId).isSome = true)
    (hne : affectedEntries db teacherId ≠ [])
    (hnd : ((affectedEntries db teacherId).map Entry.id).Nodup)
    (hfresh : ∀ e ∈ affectedEntries db teacherId,
      (subs0.filter fun s => s.date == date && s.timetable_entry_id == e.id) = [])
    (hres : auto_assign_substitutes db subs0 teacherId date = some (subsAfter, ok)) :
    ∃ created, subsAfter = subs0 ++ created ∧
      (∀ e ∈ affectedEntries db teacherId,
        (subsAfter.filter fun s =>
          s.date == date && s.timetable_entry_id == e.id).length = 1) ∧
      (∀ s ∈ created, s.original_teacher_id = teacherId ∧ s.date = date) ∧
      ((∃ c, ∀ s ∈ created, s.substitute_teacher_id = some c ∧ s.status = "confirmed")
        ∨ ∀ s ∈ created, s.substitute_teacher_id = none ∧ s.status = "cancelled") := by
  obtain ⟨cand, hcand⟩ := Option.isSome_iff_exists.mp hfind
  have hcount : ∀ (f : Entry → Substitution),
      (∀ e, (f e).timetable_entry_id = e.id ∧ (f e).date = date) →
      ∀ e ∈ affectedEntries db teacherId,
        ((subs0 ++ (affectedEntries db teacherId).map f).filter fun s =>
          s.date == date && s.timetable_entry_id == e.id).length = 1 := by
    intro f hf e he
    rw [List.filter_append, List.length_append, hfresh e he]
    simp only [List.length_nil, Nat.zero_add]
    exact count_one_per_entry _ hnd f date hf e he
  obtain hcase | hcase := auto_assign_cases db subs0 teacherId date (subsAfter, ok)
      cand hcand hne hres
  · obtain ⟨cid, hres'⟩ := hcase
    rw [Prod.mk.injEq] at hres'
    obtain ⟨h1, -⟩ := hres'
    refine ⟨_, h1, ?_, ?_, Or.inl ⟨cid, ?_⟩⟩
    · rw [h1]
      exact hcount _ (fun e => ⟨rfl, rfl⟩)
    · intro s hs
      obtain ⟨e, -, rfl⟩ := List.mem_map.mp hs
      exact ⟨rfl, rfl⟩
    · intro s hs
      obtain ⟨e, -, rfl⟩ := List.mem_map.mp hs
      exact ⟨rfl, rfl⟩
  · rw [Prod.mk.injEq] at hcase
    obtain ⟨h1, -⟩ := hcase
    refine ⟨_, h1, ?_, ?_, Or.inr ?_⟩
    · rw [h1]
      exact hcount _ (fun e => ⟨rfl, rfl⟩)
    · intro s hs
      obtain ⟨e, -, rfl⟩ := List.mem_map.mp hs
      exact ⟨rfl, rfl⟩
    · intro s hs
      obtain ⟨e, -, rfl⟩ := List.mem_map.mp hs
      exact ⟨rfl, rfl⟩

/-- Database of the C3 witness: absent teacher 1 has one entry; teacher
2 is free, teaches the affected subject, and becomes the substitute. -/
def c3Db : Db :=
  { teachers := [{ id := 1, max_hours_per_week := some 12 },
                 { id := 2, max_hours_per_week := some 12 }],
    subjects := [{ id := 1, name := "Math", is_lab := false,
                   required_room_type := "LectureHall", duration_slots := 1,
                   teacher_id := some 2 }],
    entries := [{ id := 7, class_group_id := 1, subject_id := 1, room_id := 1,
                  time_slot_id := 5, teacher_id := some 1 }] }

/-- Substitution table after the C3 witness call. -/
def c3SubsAfter : List Substitution :=
  [{ date := "2026-01-05", timetable_entry_id := 7, original_teacher_id := 1,
     substitute_teacher_id := some 2, status := "confirmed" }]

/-- C3 witness: the theorem applied to the concrete call
`auto_assign(teacher 1, 2026-01-05)` on `c3Db`. -/
theorem c3_auto_assign_terminal_witness :
    (affectedEntries c3Db 1 ≠ []) ∧
      ∃ created, c3SubsAfter = [] ++ created ∧
        (∀ e ∈ affectedEntries c3Db 1,
          (c3SubsAfter.filter fun s =>
            s.date == "2026-01-05" && s.timetable_entry_id == e.id).length = 1) ∧
        (∀ s ∈ created, s.original_teacher_id = 1 ∧ s.date = "2026-01-05") ∧
        ((∃ c, ∀ s ∈ created, s.substitute_teacher_id = some c ∧ s.status = "confirmed")
          ∨ ∀ s ∈ created, s.substitute_teacher_id = none ∧ s.status = "cancelled") :=
  ⟨by decide, c3_auto_assign_terminal c3Db [] 1 ("2026-01-05") c3SubsAfter true
    (by decide) (by decide) (by decide) (by decide) (by decide)⟩
